import Mathlib

set_option maxRecDepth 2000

/-!
Verification of the Invoice Reconciliation & Validation Engine
(`invoice_automation`): a shallow embedding in Lean 4 of the matching,
validation and settlement-write logic, together with theorems settling the
specification claims.

Modelling conventions:
* Python `Decimal` amounts and the floating-point candidate scores are
  modelled as exact rationals (`Rat`).
* Python `str` is Lean `String`; `Optional[str]` is `Option String`;
  Python truthiness of strings/options/amounts is made explicit
  (`pyTruthy…` helpers).
* File/workbook I/O (`pd.read_excel`, `openpyxl.load_workbook`) is out of
  scope: the embedded reader functions take the loaded table
  (`DataFrame`) as an argument, and the embedded writer operates on an
  in-memory workbook value.
* Python exceptions are modelled with `Except String`.
* `datetime` values are never inspected by the verified logic; date cells
  are carried as their raw strings.
-/

/-! ### Python string primitives -/

/-- Python whitespace characters (`str.split` / `str.strip` default set,
ASCII range). -/
def pyIsSpace (c : Char) : Bool :=
  c == ' ' || c == '\t' || c == '\n' || c == '\x0d' || c == '\x0b' || c == '\x0c'

/-- Python `str.lower` (ASCII letters; inputs in this code base are ASCII). -/
def pyLower (s : String) : String := String.mk (s.data.map Char.toLower)

/-- Python `str.upper` (ASCII letters). -/
def pyUpper (s : String) : String := String.mk (s.data.map Char.toUpper)

/-- Python `str.strip()` — remove leading and trailing whitespace. -/
def pyStrip (s : String) : String :=
  String.mk (((s.data.dropWhile pyIsSpace).reverse.dropWhile pyIsSpace).reverse)

/-- Python `str.strip(ch)` — remove leading and trailing copies of one
character. -/
def pyStripChar (ch : Char) (s : String) : String :=
  String.mk (((s.data.dropWhile (· == ch)).reverse.dropWhile (· == ch)).reverse)

/-- Helper for `pySplitWs`: split a character list on whitespace runs. -/
def pySplitWsAux : List Char → List Char → List String
  | [], acc => if acc.isEmpty then [] else [String.mk acc.reverse]
  | c :: cs, acc =>
    if pyIsSpace c then
      if acc.isEmpty then pySplitWsAux cs []
      else String.mk acc.reverse :: pySplitWsAux cs []
    else pySplitWsAux cs (c :: acc)

/-- Python `str.split()` with no argument: split on whitespace runs,
discarding empty pieces. -/
def pySplitWs (s : String) : List String := pySplitWsAux s.data []

/-- Python `sep.join(parts)`. -/
def pyJoin (sep : String) : List String → String
  | [] => ""
  | p :: ps => ps.foldl (fun acc q => acc ++ sep ++ q) p

/-- Split a character list at every occurrence of `c`, keeping empty
segments (Python `str.split(ch)`). -/
def splitOnCharList (c : Char) : List Char → List (List Char)
  | [] => [[]]
  | x :: xs =>
    if x == c then [] :: splitOnCharList c xs
    else
      match splitOnCharList c xs with
      | [] => [[x]]
      | h :: t => (x :: h) :: t

/-- Python `s.split(ch)` (keeps empty pieces, unlike the no-argument
form). -/
def pySplitOnChar (c : Char) (s : String) : List String :=
  (splitOnCharList c s.data).map String.mk

/-- Python `s.replace(ch, "")` for a single-character pattern (the only
form the code base uses). -/
def removeChar (c : Char) (s : String) : String :=
  String.mk (s.data.filter (fun x => x ≠ c))

/-- Stable insertion of `x` after every element `y` with `le y x`. -/
def pyInsertSorted (le : α → α → Bool) (x : α) : List α → List α
  | [] => [x]
  | y :: ys => if le y x then y :: pyInsertSorted le x ys else x :: y :: ys

/-- Stable sort (model of Python `sorted` / `list.sort`, which are
stable; any stable sort of a total preorder yields the same list). -/
def pySortStable (le : α → α → Bool) (l : List α) : List α :=
  l.foldl (fun acc x => pyInsertSorted le x acc) []

/-- Python `pat in s` for strings: substring containment. -/
def strContains (s pat : String) : Bool := decide (pat.data <:+: s.data)

/-- Python truthiness of an `Optional[str]`: `None` and `""` are falsy. -/
def pyTruthyOS : Option String → Bool
  | none => false
  | some s => s ≠ ""

/-- Python `a or b` on `Optional[str]` values: the first truthy operand. -/
def pyOrOS (a b : Option String) : Option String :=
  if pyTruthyOS a then a else b

/-- Python `str(x)` on an `Optional[str]`: `None` renders as `"None"`. -/
def pyShowOS : Option String → String
  | none => "None"
  | some s => s

/-- Python truthiness of a string combined with `.strip()`:
`bool(s and s.strip())`. -/
def pyTruthyStrip (s : String) : Bool := s ≠ "" && pyStrip s ≠ ""

/-! ### Exact-decimal rendering helpers

Python renders scores with `f"{x:.1f}"` and amounts with `f"{x:.2f}"`;
both round half-to-even.  The embedded formatter reproduces this on the
exact rational stand-ins. -/

/-- Floor of a rational as an integer, in an executable form
(the denominator is positive, so floor division of the numerator by the
denominator is the floor). -/
def ratFloor (q : ℚ) : ℤ := Int.fdiv q.num (q.den : ℤ)

/-- Round a rational to the nearest integer, ties to even
(Python `round`). -/
def intRoundHalfEven (q : ℚ) : ℤ :=
  let f : ℤ := ratFloor q
  let frac : ℚ := q - (f : ℚ)
  if frac < 1/2 then f
  else if frac > 1/2 then f + 1
  else if f % 2 = 0 then f else f + 1

/-- Left-pad a numeral string with zeros to a given width. -/
def padZeros (width : Nat) (s : String) : String :=
  String.mk (List.replicate (width - s.length) '0') ++ s

/-- Fixed-point rendering of a rational with `digits` decimal places,
rounding half-to-even (model of Python `format(x, '.Nf')`). -/
def formatFixed (digits : Nat) (q : ℚ) : String :=
  let scaled := intRoundHalfEven (q * ((10 : ℚ) ^ digits))
  let sign := if scaled < 0 then "-" else ""
  let a := scaled.natAbs
  let ip := a / 10 ^ digits
  let fp := a % 10 ^ digits
  if digits = 0 then sign ++ toString ip
  else sign ++ toString ip ++ "." ++ padZeros digits (toString fp)

/-! ### fuzzywuzzy / difflib embedding

`StringMatcher.fuzzy_match_score` calls `fuzz.token_sort_ratio`, which
processes both strings (`utils.full_process`: drop non-ASCII, map
non-alphanumerics to spaces, lower-case, strip), sorts their tokens, and
compares the re-joined strings with `fuzz.ratio`.  `fuzz.ratio` carries
three decorators — return 0 when an input is `None`, 100 when the two
(processed) inputs are equal, 0 when one is empty — before falling back
to `difflib.SequenceMatcher.ratio`, scaled to 0–100 and rounded
half-to-even.  All of that is reproduced below; the sequence matcher is
the stdlib algorithm with `isjunk=None` (so the junk set is empty and
only the `autojunk` popularity filter applies). -/

/-- fuzzywuzzy `utils.asciidammit` for `str` input: drop non-ASCII
characters. -/
def asciiOnly (s : List Char) : List Char := s.filter (fun c => c.val < 128)

/-- ASCII word characters (regex `\w`): letters, digits, underscore. -/
def isWordChar (c : Char) : Bool := c.isAlphanum || c == '_'

/-- fuzzywuzzy `utils.full_process(s, force_ascii=True)`. -/
def fullProcess (s : String) : String :=
  let ascii := asciiOnly s.data
  let replaced := ascii.map (fun c => if isWordChar c then c else ' ')
  pyStrip (pyLower (String.mk replaced))

/-- Character lookup with a default (list indexing inside the sequence
matcher; the guards keep every access in range). -/
def charAt (l : List Char) (i : Nat) : Char := l.getD i ' '

/-- Indices of `c` in `b`, with difflib's `autojunk` popularity filter:
for `len(b) ≥ 200`, characters occurring in more than 1% of positions are
dropped from the index. -/
def b2jGet (b : List Char) (c : Char) : List Nat :=
  let idxs := (b.enum.filter (fun p => p.2 == c)).map (fun p => p.1)
  if b.length ≥ 200 && idxs.length > b.length / 100 + 1 then [] else idxs

/-- Best match triple `(besti, bestj, bestsize)` carried through
`find_longest_match`. -/
structure BestMatch where
  i : Nat
  j : Nat
  size : Nat
deriving DecidableEq, Repr

/-- Inner loop of difflib `find_longest_match`: scan the occurrence list
of `a[i]` in `b`, extending runs recorded in `j2len` (a `j ↦ length`
map), with the `break` at `j ≥ bhi`.  Returns the new map and best. -/
def flmScanJs (blo bhi i : Nat) (j2len : List (Nat × Nat)) :
    List Nat → List (Nat × Nat) → BestMatch → List (Nat × Nat) × BestMatch
  | [], newm, best => (newm, best)
  | j :: js, newm, best =>
    if j < blo then flmScanJs blo bhi i j2len js newm best
    else if j ≥ bhi then (newm, best)
    else
      let k := ((j2len.lookup (j - 1)).getD 0) + 1
      let newm := (j, k) :: newm
      let best := if k > best.size then ⟨i + 1 - k, j + 1 - k, k⟩ else best
      flmScanJs blo bhi i j2len js newm best

/-- Outer loop of `find_longest_match` over `i ∈ [alo, ahi)`. -/
def flmOuter (a b : List Char) (blo bhi : Nat) :
    List Nat → List (Nat × Nat) → BestMatch → BestMatch
  | [], _, best => best
  | i :: is, j2len, best =>
    let (newm, best) := flmScanJs blo bhi i j2len (b2jGet b (charAt a i)) [] best
    flmOuter a b blo bhi is newm best

/-- Left extension loop of `find_longest_match` (the junk set is empty,
so only the plain-equality extension fires).  Fuel bounds the loop; it
starts at `besti`, which the guard `alo < besti` never lets run out. -/
def flmExtendLeft (a b : List Char) (alo blo : Nat) :
    Nat → BestMatch → BestMatch
  | 0, best => best
  | fuel + 1, best =>
    if alo < best.i && blo < best.j &&
        charAt a (best.i - 1) == charAt b (best.j - 1) then
      flmExtendLeft a b alo blo fuel ⟨best.i - 1, best.j - 1, best.size + 1⟩
    else best

/-- Right extension loop of `find_longest_match`. -/
def flmExtendRight (a b : List Char) (ahi bhi : Nat) :
    Nat → BestMatch → BestMatch
  | 0, best => best
  | fuel + 1, best =>
    if best.i + best.size < ahi && best.j + best.size < bhi &&
        charAt a (best.i + best.size) == charAt b (best.j + best.size) then
      flmExtendRight a b ahi bhi fuel ⟨best.i, best.j, best.size + 1⟩
    else best

/-- difflib `SequenceMatcher.find_longest_match` on the window
`a[alo:ahi]`, `b[blo:bhi]`, with `isjunk=None`. -/
def findLongestMatch (a b : List Char) (alo ahi blo bhi : Nat) : BestMatch :=
  let best := flmOuter a b blo bhi (List.range' alo (ahi - alo)) [] ⟨alo, blo, 0⟩
  let best := flmExtendLeft a b alo blo best.i best
  flmExtendRight a b ahi bhi bhi best

/-- Total size of all matching blocks (the `M` of difflib's
`ratio = 2M/T`): the recursive divide-and-conquer of
`get_matching_blocks`, which splits around each longest match.  The fuel
`(ahi-alo)+(bhi-blo)+1` strictly dominates the recursion depth, since a
non-empty match shrinks both sub-windows. -/
def matchSizeSum (a b : List Char) : Nat → Nat → Nat → Nat → Nat → Nat
  | 0, _, _, _, _ => 0
  | fuel + 1, alo, ahi, blo, bhi =>
    let m := findLongestMatch a b alo ahi blo bhi
    if m.size = 0 then 0
    else
      m.size + matchSizeSum a b fuel alo m.i blo m.j +
        matchSizeSum a b fuel (m.i + m.size) ahi (m.j + m.size) bhi

/-- difflib `SequenceMatcher(None, a, b).ratio()` as an exact rational. -/
def seqMatchScore (a b : List Char) : ℚ :=
  let total := a.length + b.length
  if total = 0 then 1
  else
    let m := matchSizeSum a b (total + 1) 0 a.length 0 b.length
    (2 * m : ℚ) / (total : ℚ)

/-- fuzzywuzzy `utils.intr`: `int(round(x))`. -/
def fuzzIntr (q : ℚ) : ℤ := intRoundHalfEven q

/-- fuzzywuzzy `fuzz.ratio` on processed strings, with its decorators:
equal inputs give 100, an empty input gives 0, otherwise the scaled
sequence-matcher score. -/
def fuzzSimpleScore (s1 s2 : String) : ℤ :=
  if s1 = s2 then 100
  else if s1.length = 0 || s2.length = 0 then 0
  else fuzzIntr (100 * seqMatchScore s1.data s2.data)

/-- fuzzywuzzy `fuzz._process_and_sort(s, force_ascii=True,
full_process=True)`: full-process, split into tokens, sort, re-join. -/
def processAndSort (s : String) : String :=
  let ts := fullProcess s
  let tokens := pySplitWs ts
  pyStrip (pyJoin " " (pySortStable (fun x y => decide (x ≤ y)) tokens))

/-- fuzzywuzzy `fuzz.token_sort_ratio`. -/
def tokenSortScore (s1 s2 : String) : ℤ :=
  fuzzSimpleScore (processAndSort s1) (processAndSort s2)

/-! ### StringMatcher (`utils/string_matcher.py`) -/

/-- `StringMatcher.normalize_string`: lower-case, map the punctuation
class `[,.\-_/\\]` to spaces, collapse whitespace. -/
def normalizeString (s : String) : String :=
  if s = "" then ""
  else
    let l := pyLower s
    let l := String.mk (l.data.map (fun c =>
      if c == ',' || c == '.' || c == '-' || c == '_' || c == '/' || c == '\\'
      then ' ' else c))
    pyJoin " " (pySplitWs l)

/-- `StringMatcher.fuzzy_match_score`: 0 when either input is `None` or
empty, else `fuzz.token_sort_ratio` of the normalized strings. -/
def fuzzyMatchScore (s1 s2 : Option String) : ℤ :=
  if !pyTruthyOS s1 || !pyTruthyOS s2 then 0
  else tokenSortScore (normalizeString (s1.getD "")) (normalizeString (s2.getD ""))

/-! ### Data models (`models/`) -/

/-- `ValidationSeverity` (`models/validation_result.py`). -/
inductive ValidationSeverity where
  | ERROR
  | WARNING
  | INFO
deriving DecidableEq, Repr

export ValidationSeverity (ERROR WARNING INFO)

/-- One validation check result (`models/validation_result.py`,
`Validation`).  The `expected`/`actual` payloads are `Any` in Python;
they are carried as rendered strings here. -/
structure Validation where
  check_name : String
  passed : Bool
  expected : String
  actual : String
  severity : ValidationSeverity
  message : String
deriving DecidableEq, Repr

/-- Extracted invoice record (`models/invoice.py`).  The three amounts
are non-optional `Decimal`s in the dataclass; absence is representable
only as zero (Python falsiness), which is how the validators test for
it.  `invoice_date` is never inspected and is carried as a raw string.
The `extracted_fields` dict is omitted: nothing in the verified logic
reads it. -/
structure Invoice where
  invoice_number : String
  invoice_date : Option String
  supplier_name : String
  supplier_type : String
  po_number : String
  store_location : String
  store_address : String
  net_amount : ℚ
  vat_amount : ℚ
  total_amount : ℚ
  nominal_code : Option String
  description : String
  raw_text : String
  pdf_path : String
deriving DecidableEq, Repr

/-- Purchase-order row (`models/po_record.py`).  `po_number` and `store`
are annotated `str` in the dataclass but `ExcelReader._safe_str` can
supply `None` for them, so they are `Option String` here; dates are
carried as raw strings (never inspected). -/
structure PORecord where
  po_number : Option String
  sheet_name : String
  row_index : Nat
  store : Option String
  originator : Option String := none
  date : Option String := none
  job_description : Option String := none
  quote_over_200 : Option String := none
  authorized : Option String := none
  date_completed : Option String := none
  invoice_no : Option String := none
  invoice_signed : Option String := none
  invoice_amount : Option ℚ := none
  nominal_code : Option String := none
  brand : Option String := none
  ticket_no : Option String := none
deriving DecidableEq, Repr

/-- `PORecord.is_invoiced`: `bool(self.invoice_no and
str(self.invoice_no).strip())`. -/
def PORecord.is_invoiced (r : PORecord) : Bool :=
  match r.invoice_no with
  | none => false
  | some s => if s = "" then false else pyStrip s ≠ ""

/-- `PORecord.has_quote_authorization`. -/
def PORecord.has_quote_authorization (r : PORecord) : Bool :=
  (pyTruthyOS r.quote_over_200 && pyStrip (pyShowOS r.quote_over_200) ≠ "") &&
  (pyTruthyOS r.authorized && pyStrip (pyShowOS r.authorized) ≠ "")

/-- Complete validation result for one invoice
(`models/validation_result.py`, `ValidationResult`). -/
structure ValidationResult where
  invoice : Option Invoice
  po_record : Option PORecord
  validations : List Validation := []
  is_valid : Bool := false
  can_auto_update : Bool := false
  errors : List String := []
  warnings : List String := []
  pdf_path : String := ""
deriving DecidableEq, Repr

/-- `ValidationResult.add_validation`: append the check; a failed ERROR
also records its message under `errors`, a failed WARNING under
`warnings`. -/
def ValidationResult.add_validation (r : ValidationResult) (v : Validation) :
    ValidationResult :=
  { r with
    validations := r.validations ++ [v]
    errors :=
      if !v.passed && v.severity = ERROR then r.errors ++ [v.message]
      else r.errors
    warnings :=
      if !v.passed && v.severity = WARNING then r.warnings ++ [v.message]
      else r.warnings }

/-- `ValidationResult.finalize`: `is_valid` is the absence of failed
ERROR-severity checks, and `can_auto_update` additionally requires a
matched PO record.  (WARNING-severity failures are not consulted.) -/
def ValidationResult.finalize (r : ValidationResult) : ValidationResult :=
  let has_errors :=
    r.validations.any (fun v => !v.passed && v.severity = ERROR)
  { r with
    is_valid := !has_errors
    can_auto_update := !has_errors && r.po_record.isSome }

/-- `ValidationResult.get_status_summary`. -/
def ValidationResult.get_status_summary (r : ValidationResult) : String :=
  if r.can_auto_update then "SUCCESS"
  else if r.errors ≠ [] then "ERROR"
  else if r.warnings ≠ [] then "WARNING"
  else "UNKNOWN"

/-- Fresh `ValidationResult` as constructed at the top of
`InvoiceValidator.validate` (dataclass defaults for the rest). -/
def mkValidationResult (inv : Option Invoice) (po : Option PORecord)
    (path : String) : ValidationResult :=
  { invoice := inv, po_record := po, pdf_path := path }

/-! ### SheetSelector (`processors/sheet_selector.py`) -/

/-- `SheetSelector.SUPPLIER_SHEET_MAP`. -/
def SUPPLIER_SHEET_MAP : List (String × String) :=
  [("AAW", "AAW NATIONAL (PANDA)"),
   ("CJL", "CJL"),
   ("APS", "APS"),
   ("AMAZON", "ORDERS"),
   ("COMPCO", "OTHER"),
   ("AURA", "AURA AC"),
   ("STORE_MAINTENANCE", "STORE MAINTENANCE"),
   ("OTHER", "OTHER"),
   ("GENERIC", "OTHER"),
   ("SUNBELT", "OTHER"),
   ("MAXWELL_JONES", "OTHER"),
   ("METRO_SECURITY", "OTHER"),
   ("ILUX", "OTHER"),
   ("LAMPSHOP", "ORDERS")]

/-- `SheetSelector.get_sheet_name`: dictionary lookup on the upper-cased
supplier type; `None` when unmapped. -/
def getSheetName (supplier_type : String) : Option String :=
  SUPPLIER_SHEET_MAP.lookup (pyUpper supplier_type)

/-! ### ExcelReader (`processors/excel_reader.py`)

The workbook file and `pd.read_excel` are outside the embedding; a
loaded sheet (the result of `_read_sheet_with_header_detection`, columns
already normalized, every cell read with `dtype=str`) is modelled as a
`DataFrame`: a column-name list plus rows of named cells, where a `none`
cell stands for pandas `NaN` (and a missing key, which `_safe_str`
collapses to the same `None`). -/

/-- One sheet row: cells keyed by normalized column name. -/
def DFRow : Type := List (String × Option String)

instance : DecidableEq DFRow := by unfold DFRow; infer_instance

/-- A loaded sheet. -/
structure DataFrame where
  columns : List String
  rows : List DFRow
deriving DecidableEq

/-- `row.get(col)`: `none` for a missing column or a NaN cell. -/
def rowGet (row : DFRow) (col : String) : Option String :=
  (row.lookup col).getD none

/-- `ExcelReader._safe_str`: strip whitespace, then stray newlines, then
whitespace again; empty results become `None`. -/
def safeStr (v : Option String) : Option String :=
  match v with
  | none => none
  | some s =>
    let s1 := pyStrip s
    let s2 := pyStrip (pyStripChar '\n' s1)
    if s2 = "" then none else some s2

/-- All-digit check for `parseDecimal`. -/
def allDigits (l : List Char) : Bool := !l.isEmpty && l.all Char.isDigit

/-- Numeric value of a digit list. -/
def digitsToNat (l : List Char) : Nat :=
  l.foldl (fun n c => n * 10 + (c.toNat - 48)) 0

/-- Digits of the integer and fractional parts of a plain decimal
literal, or `none` when malformed. -/
def parseDecimalBody (l : List Char) : Option (ℚ) :=
  match splitOnCharList '.' l with
  | [ip] =>
    if allDigits ip then some (digitsToNat ip : ℚ) else none
  | [ip, fp] =>
    if (allDigits ip || ip.isEmpty) && (allDigits fp || fp.isEmpty) &&
        !(ip.isEmpty && fp.isEmpty) then
      some ((digitsToNat ip : ℚ) +
        (digitsToNat fp : ℚ) / ((10 : ℚ) ^ fp.length))
    else none
  | _ => none

/-- Model of `decimal.Decimal(s)` for the plain literals that occur in
ledger cells: optional sign, digits, optional fraction.  Exponent and
special forms are not modelled; they would be parsed by Python but never
occur in amount cells, and a malformed literal raises, which
`_safe_decimal` turns into `None`. -/
def parseDecimal (s : String) : Option ℚ :=
  match s.data with
  | [] => none
  | '+' :: rest => parseDecimalBody rest
  | '-' :: rest => (parseDecimalBody rest).map Neg.neg
  | l => parseDecimalBody l

/-- `ExcelReader._safe_decimal`: drop commas and pound signs, strip,
take the first line of a multi-line amount, then parse; failures give
`None`. -/
def safeDecimal (v : Option String) : Option ℚ :=
  match v with
  | none => none
  | some s =>
    if s = "" then none
    else
      let t := pyStrip (removeChar '£' (removeChar ',' s))
      let t :=
        if strContains t "\n" then pyStrip ((pySplitOnChar '\n' t).headD "")
        else t
      parseDecimal t

/-- Field names of the `PORecord` dataclass (`models/po_record.py`). -/
def poRecordFieldNames : List String :=
  ["po_number", "sheet_name", "row_index", "store", "originator", "date",
   "job_description", "quote_over_200", "authorized", "date_completed",
   "invoice_no", "invoice_signed", "invoice_amount", "nominal_code",
   "brand", "ticket_no"]

/-- Keyword-argument names passed to `PORecord(...)` by
`ExcelReader._row_to_po_record` (`processors/excel_reader.py`,
lines 276–294). -/
def rowToPORecordKwargNames : List String :=
  ["po_number", "sheet_name", "row_index", "store", "originator", "date",
   "job_description", "quote_over_200", "authorized", "date_completed",
   "invoice_no", "invoice_signed", "invoice_amount", "nominal_code",
   "brand", "ticket_no", "company_name"]

/-- A Python dataclass call accepts a keyword-argument list exactly when
every name is a declared field (otherwise `__init__` raises
`TypeError: unexpected keyword argument`). -/
def dataclassAcceptsKwargs (fields kwargs : List String) : Bool :=
  kwargs.all (fields.contains ·)

/-- The `TypeError` message raised by `_row_to_po_record`. -/
def rowToPORecordTypeError : String :=
  "TypeError: PORecord.__init__() got an unexpected keyword argument " ++
  "\x27company_name\x27"

/-- `ExcelReader._row_to_po_record`: evaluates the field expressions and
invokes the `PORecord` dataclass constructor.  The call passes a
`company_name=` keyword that `PORecord` does not declare, so it raises
`TypeError` on every invocation; the `.ok` branch shows the record the
call describes and is unreachable. -/
def rowToPORecord (row : DFRow) (sheetName : String) (rowIndex : Nat) :
    Except String PORecord :=
  if dataclassAcceptsKwargs poRecordFieldNames rowToPORecordKwargNames then
    .ok
      { po_number := safeStr (rowGet row "PO")
        sheet_name := sheetName
        row_index := rowIndex
        store := safeStr (rowGet row "STORE")
        originator := safeStr (rowGet row "ORIGINATOR")
        date := safeStr (rowGet row "DATE")
        job_description :=
          pyOrOS (safeStr (rowGet row "JOB DESCRIPTION"))
            (safeStr (rowGet row "ORDER DETAILS"))
        quote_over_200 := safeStr (rowGet row "QUOTE OVER £200")
        authorized := safeStr (rowGet row "AUTHORISED")
        date_completed := safeStr (rowGet row "DATE COMPLETED")
        invoice_no := safeStr (rowGet row "INVOICE NO.")
        invoice_signed := safeStr (rowGet row "INVOICE SIGNED")
        invoice_amount := safeDecimal (rowGet row "INVOICE AMOUNT (EX VAT)")
        nominal_code := safeStr (rowGet row "NOMINAL CODE")
        brand := safeStr (rowGet row "BRAND")
        ticket_no := safeStr (rowGet row "TICKET NO.") }
  else .error rowToPORecordTypeError

/-- `ExcelReader.find_po_record` on a loaded sheet (`df` is the result
of `_read_sheet_with_header_detection`; `none` when the sheet could not
be read): containment match of the cleaned PO number against the
upper-cased `PO` column, first matching row wins. -/
def readerFindPORecord (df : Option DataFrame) (po_number : String)
    (sheetName : String) : Except String (Option PORecord) :=
  if po_number = "" || pyStrip po_number = "" then .ok none
  else
    match df with
    | none => .ok none
    | some df =>
      if !df.columns.contains "PO" then .ok none
      else
        let poClean := pyUpper (pyStrip po_number)
        match (df.rows.enum.filter (fun p =>
            strContains (pyUpper ((rowGet p.2 "PO").getD "")) poClean)).head? with
        | none => .ok none
        | some (idx, row) => (rowToPORecord row sheetName idx).map some

/-- `ExcelReader.find_by_invoice_number` on a loaded sheet: token match
against the (possibly multi-line) `INVOICE NO.`-like column. -/
def readerFindByInvoiceNumber (df : Option DataFrame) (invoice_number : String)
    (sheetName : String) : Except String (Option PORecord) :=
  if invoice_number = "" || pyStrip invoice_number = "" then .ok none
  else
    match df with
    | none => .ok none
    | some df =>
      match df.columns.find? (fun c => strContains (pyUpper c) "INVOICE NO") with
      | none => .ok none
      | some invCol =>
        let invClean := pyUpper (pyStrip invoice_number)
        match (df.rows.enum.filter (fun p =>
            let cellVal := pyStrip (pyShowOS (rowGet p.2 invCol))
            if cellVal = "" || cellVal = "nan" then false
            else
              let parts := ((pySplitOnChar '\n' cellVal).map
                (fun q => pyUpper (pyStrip q))).filter (fun q => pyStrip q ≠ "")
              parts.contains invClean)).head? with
        | none => .ok none
        | some (idx, row) => (rowToPORecord row sheetName idx).map some

/-- Fuzzy score of one row (`find_po_candidates` loop body): 0.50 ×
store similarity + 0.25 × company similarity + 0.25 × amount proximity,
each component contributing only when both sides are available. -/
def scoreRow (df : DataFrame) (inv : Invoice) (row : DFRow) : ℚ :=
  let s0 : ℚ := 0
  let poStore := safeStr (rowGet row "STORE")
  let s1 :=
    if pyTruthyOS poStore && inv.store_location ≠ "" then
      s0 + (fuzzyMatchScore (some inv.store_location) poStore : ℚ) * (1/2)
    else s0
  let company :=
    pyOrOS (safeStr (rowGet row "COMPANY NAME")) (safeStr (rowGet row "SUPPLIER"))
  let s2 :=
    if pyTruthyOS company && inv.supplier_name ≠ "" then
      s1 + (fuzzyMatchScore (some inv.supplier_name) company : ℚ) * (1/4)
    else s1
  let quoteVal := safeStr (rowGet row "QUOTE OVER £200")
  let invAmountCol :=
    df.columns.find? (fun c => strContains (pyUpper c) "INVOICE AMOUNT")
  let poAmount :=
    match invAmountCol with
    | some c => safeDecimal (rowGet row c)
    | none => none
  let poQuote := if pyTruthyOS quoteVal then safeDecimal quoteVal else none
  let refAmount :=
    match poAmount with
    | some q => if q ≠ 0 then some q else poQuote
    | none => poQuote
  match refAmount with
  | some ref =>
    if inv.net_amount ≠ 0 && ref > 0 then
      s2 + (min inv.net_amount ref / max inv.net_amount ref) * 100 * (1/4)
    else s2
  | none => s2

/-- Row loop of `find_po_candidates`: the first row with a positive
score calls `_row_to_po_record`, which raises. -/
def candidatesLoop (df : DataFrame) (sheetName : String) (inv : Invoice) :
    List (Nat × DFRow) → Except String (List (PORecord × ℚ))
  | [] => .ok []
  | (idx, row) :: rest =>
    let score := scoreRow df inv row
    if score > 0 then
      match rowToPORecord row sheetName idx with
      | .error e => .error e
      | .ok rec =>
        (candidatesLoop df sheetName inv rest).map (fun l => (rec, score) :: l)
    else candidatesLoop df sheetName inv rest

/-- Stable descending sort by score (`list.sort(key=..., reverse=True)`
is stable, so equal scores keep row order). -/
def sortCandidates (l : List (PORecord × ℚ)) : List (PORecord × ℚ) :=
  pySortStable (fun x y => decide (x.2 ≥ y.2)) l

/-- `ExcelReader.find_po_candidates` on a loaded sheet. -/
def findPOCandidates (df : Option DataFrame) (sheetName : String)
    (inv : Invoice) : Except String (List (PORecord × ℚ)) :=
  match df with
  | none => .ok []
  | some df => (candidatesLoop df sheetName inv df.rows.enum).map sortCandidates

/-! ### POMatcher (`validators/po_matcher.py`)

The matcher is embedded over the three reader operations it invokes on
the selected sheet (`find_po_record`, `find_by_invoice_number`,
`find_po_candidates`); each may raise, which propagates.  Apostrophes in
messages are written `\x27`. -/

/-- `POMatcher.FUZZY_MATCH_THRESHOLD`. -/
def FUZZY_MATCH_THRESHOLD : ℚ := 40

/-- Outcome of the unknown-supplier-type short circuit
(`po_matcher.py`, lines 47–55). -/
def unknownSheetValidation (supplier_type : String) : Validation :=
  { check_name := "Sheet Selection"
    passed := false
    expected := "Known supplier type with mapped sheet"
    actual := supplier_type
    severity := ERROR
    message := "Unknown supplier type \x27" ++ supplier_type ++
      "\x27, cannot determine sheet" }

/-- Strategy-1 (PO number containment) success outcome. -/
def strat1Validation (inv : Invoice) (sheetName : String) : Validation :=
  { check_name := "PO Match"
    passed := true
    expected := "PO " ++ inv.po_number ++ " found"
    actual := "Found in " ++ sheetName ++ " sheet (Strategy 1: PO match)"
    severity := INFO
    message := "PO \x27" ++ inv.po_number ++ "\x27 found in sheet \x27" ++
      sheetName ++ "\x27" }

/-- Strategy-2 (prior invoice number) success outcome. -/
def strat2Validation (inv : Invoice) (sheetName : String) (r : PORecord) :
    Validation :=
  { check_name := "PO Match"
    passed := true
    expected := "Invoice " ++ inv.invoice_number ++ " found"
    actual := "Found in " ++ sheetName ++ " sheet (Strategy 2: invoice # match)"
    severity := INFO
    message := "Invoice \x27" ++ inv.invoice_number ++
      "\x27 already recorded in sheet \x27" ++ sheetName ++ "\x27 for PO \x27" ++
      pyShowOS r.po_number ++ "\x27" }

/-- Strategy-3 acceptance outcome: advisory below the 60-point
confidence split, informational at or above it. -/
def fuzzyAcceptValidation (inv : Invoice) (sheetName : String) (r : PORecord)
    (score : ℚ) : Validation :=
  let matchDetails :=
    "score=" ++ formatFixed 1 score ++
      (if inv.po_number = "" then ", no PO on invoice" else "")
  { check_name := "PO Match"
    passed := true
    expected := "Matching PO record"
    actual := "Found PO \x27" ++ pyShowOS r.po_number ++ "\x27 in " ++
      sheetName ++ " (Strategy 3: fuzzy match, " ++ matchDetails ++ ")"
    severity := if score < 60 then WARNING else INFO
    message := "Fuzzy matched to PO \x27" ++ pyShowOS r.po_number ++
      "\x27 in \x27" ++ sheetName ++ "\x27 (store=\x27" ++ pyShowOS r.store ++
      "\x27, score=" ++ formatFixed 1 score ++ ")" }

/-- Advisory outcome emitted when the fuzzy match had no PO reference to
work from. -/
def poNumberWarnValidation : Validation :=
  { check_name := "PO Number Warning"
    passed := true
    expected := "PO number on invoice"
    actual := "No PO found on invoice"
    severity := WARNING
    message := "No PO number found on invoice — matched using store/supplier/amount" }

/-- Rendering of the closest candidates in the below-threshold outcome
(`"; ".join(...)` over `candidates[:3]`). -/
def candidateInfoText (cands : List (PORecord × ℚ)) : String :=
  pyJoin "; " (cands.map (fun c =>
    "PO \x27" ++ pyShowOS c.1.po_number ++ "\x27 store=\x27" ++
      pyShowOS c.1.store ++ "\x27 (score=" ++ formatFixed 1 c.2 ++ ")"))

/-- Below-threshold fuzzy outcome: single blocking failure naming the
closest (at most three) candidates. -/
def noConfidentValidation (sheetName : String) (cands : List (PORecord × ℚ))
    (bestScore : ℚ) : Validation :=
  let ci := candidateInfoText (cands.take 3)
  { check_name := "PO Match"
    passed := false
    expected := "Matching PO record with score >= " ++
      formatFixed 0 FUZZY_MATCH_THRESHOLD
    actual := "Best score " ++ formatFixed 1 bestScore ++ ". Closest: " ++ ci
    severity := ERROR
    message := "No confident match found in \x27" ++ sheetName ++
      "\x27. Closest candidates: " ++ ci }

/-- No-candidates outcome (nothing scored at all). -/
def noMatchValidation (inv : Invoice) (sheetName : String) : Validation :=
  let details :=
    if inv.po_number ≠ "" then "PO=\x27" ++ inv.po_number ++ "\x27"
    else "no PO on invoice"
  { check_name := "PO Match"
    passed := false
    expected := "Match in " ++ sheetName ++ " sheet"
    actual := "No match found (" ++ details ++ ")"
    severity := ERROR
    message := "No matching PO record found in sheet \x27" ++ sheetName ++
      "\x27 (" ++ details ++ ")" }

/-- Failing duplicate outcome (`_add_post_match_validations`). -/
def duplicateFailValidation (r : PORecord) : Validation :=
  { check_name := "Duplicate Invoice Check"
    passed := false
    expected := "PO not yet invoiced"
    actual := "Already invoiced: " ++ pyShowOS r.invoice_no
    severity := ERROR
    message := "PO \x27" ++ pyShowOS r.po_number ++
      "\x27 already has invoice number \x27" ++ pyShowOS r.invoice_no ++ "\x27" }

/-- Passing duplicate outcome. -/
def duplicatePassValidation : Validation :=
  { check_name := "Duplicate Invoice Check"
    passed := true
    expected := "PO not yet invoiced"
    actual := "No existing invoice"
    severity := INFO
    message := "PO is available for invoicing" }

/-- Store-identity outcome: informational at ≥ 70, advisory (still
passing) at 50–69, blocking failure below 50. -/
def storeMatchValidation (inv : Invoice) (r : PORecord) : Validation :=
  let score := fuzzyMatchScore (some inv.store_location) r.store
  if score ≥ 70 then
    { check_name := "Store Match"
      passed := true
      expected := pyShowOS r.store
      actual := inv.store_location ++ " (" ++ toString score ++ "% match)"
      severity := INFO
      message := "Store name matches: \x27" ++ inv.store_location ++
        "\x27 ≈ \x27" ++ pyShowOS r.store ++ "\x27 (" ++ toString score ++ "%)" }
  else
    let severity := if score ≥ 50 then WARNING else ERROR
    { check_name := "Store Match"
      passed := severity = WARNING
      expected := pyShowOS r.store
      actual := inv.store_location ++ " (" ++ toString score ++ "% match)"
      severity := severity
      message := "Store name mismatch: invoice=\x27" ++ inv.store_location ++
        "\x27, PO=\x27" ++ pyShowOS r.store ++ "\x27 (" ++ toString score ++ "%)" }

/-- `POMatcher._add_post_match_validations`: the duplicate check, then —
when both sides carry a store label — the store-identity check. -/
def postMatchValidations (inv : Invoice) (r : PORecord) : List Validation :=
  (if r.is_invoiced then [duplicateFailValidation r] else [duplicatePassValidation]) ++
  (if inv.store_location ≠ "" && pyTruthyOS r.store then
    [storeMatchValidation inv r]
  else [])

/-- `POMatcher.find_po_record`: sheet selection, then the strategy
cascade.  `lookupPO`, `lookupInv` and `getCands` are the reader
operations (`excel_reader.find_po_record`, `find_by_invoice_number`,
`find_po_candidates`) applied to the selected sheet; exceptions they
raise propagate. -/
def matcherFindPORecord
    (lookupPO : String → String → Except String (Option PORecord))
    (lookupInv : String → String → Except String (Option PORecord))
    (getCands : String → Invoice → Except String (List (PORecord × ℚ)))
    (inv : Invoice) :
    Except String (Option PORecord × List Validation) :=
  match getSheetName inv.supplier_type with
  | none => .ok (none, [unknownSheetValidation inv.supplier_type])
  | some sheetName =>
    let step1 : Except String (Option PORecord) :=
      if pyTruthyStrip inv.po_number then lookupPO inv.po_number sheetName
      else .ok none
    match step1 with
    | .error e => .error e
    | .ok (some r) =>
      .ok (some r, strat1Validation inv sheetName :: postMatchValidations inv r)
    | .ok none =>
      let step2 : Except String (Option PORecord) :=
        if pyTruthyStrip inv.invoice_number then
          lookupInv inv.invoice_number sheetName
        else .ok none
      match step2 with
      | .error e => .error e
      | .ok (some r) =>
        .ok (some r,
          strat2Validation inv sheetName r :: postMatchValidations inv r)
      | .ok none =>
        match getCands sheetName inv with
        | .error e => .error e
        | .ok [] => .ok (none, [noMatchValidation inv sheetName])
        | .ok ((best, bestScore) :: rest) =>
          if bestScore ≥ FUZZY_MATCH_THRESHOLD then
            .ok (some best,
              fuzzyAcceptValidation inv sheetName best bestScore ::
                (if inv.po_number = "" then [poNumberWarnValidation] else []) ++
                postMatchValidations inv best)
          else
            .ok (none,
              [noConfidentValidation sheetName ((best, bestScore) :: rest)
                bestScore])

/-! ### QuoteValidator (`validators/quote_validator.py`) and
InvoiceValidator (`validators/invoice_validator.py`) -/

/-- Rendering of `str(Decimal)` in messages.  The printed exponent of a
`Decimal` depends on how it was constructed and is not recoverable from
the rational value; amounts in this pipeline originate as two-decimal
literals, and no claim inspects these renderings. -/
def pyShowDecimal (q : ℚ) : String :=
  if q.den = 1 then toString q.num else formatFixed 2 q

/-- `QuoteValidator.validate` with its threshold (default £200):
informational pass at or below the threshold, otherwise both the quote
reference and the authorisation must be present on the row. -/
def quoteValidate (threshold : ℚ) (inv : Invoice) (r : PORecord) : Validation :=
  if inv.net_amount ≤ threshold then
    { check_name := "Quote Authorization (£200+ Check)"
      passed := true
      expected := "No authorization required"
      actual := "Amount £" ++ formatFixed 2 inv.net_amount ++ " ≤ £" ++
        formatFixed 2 threshold
      severity := INFO
      message := "Invoice amount £" ++ formatFixed 2 inv.net_amount ++
        " is below £" ++ formatFixed 2 threshold ++
        " threshold - no quote authorization required" }
  else
    let hasQuoteRef :=
      pyTruthyOS r.quote_over_200 && pyStrip (pyShowOS r.quote_over_200) ≠ ""
    let hasAuthorization :=
      pyTruthyOS r.authorized && pyStrip (pyShowOS r.authorized) ≠ ""
    if hasQuoteRef && hasAuthorization then
      { check_name := "Quote Authorization (£200+ Check)"
        passed := true
        expected := "Quote reference and authorization present"
        actual := "Quote: " ++ pyShowOS r.quote_over_200 ++ ", Auth: " ++
          pyShowOS r.authorized
        severity := INFO
        message := "Quote authorized: Quote ref \x27" ++
          pyShowOS r.quote_over_200 ++ "\x27, Authorized by \x27" ++
          pyShowOS r.authorized ++ "\x27" }
    else
      let sheet := r.sheet_name
      let rowNumber := r.row_index + 1
      if hasQuoteRef && !hasAuthorization then
        { check_name := "Quote Authorization (£200+ Check)"
          passed := false
          expected := "Quote reference AND authorization"
          actual := "Quote: " ++ pyShowOS r.quote_over_200 ++ ", Auth: MISSING"
          severity := WARNING
          message := "Over £200 — quote \x27" ++ pyShowOS r.quote_over_200 ++
            "\x27 present but \x27AUTHORISED\x27 is empty (sheet \x27" ++
            sheet ++ "\x27, row " ++ toString rowNumber ++ ")" }
      else if !hasQuoteRef && !hasAuthorization then
        { check_name := "Quote Authorization (£200+ Check)"
          passed := false
          expected := "Quote reference and authorization"
          actual := "No quote reference found"
          severity := WARNING
          message := "Over £200 — \x27QUOTE OVER £200\x27 and " ++
            "\x27AUTHORISED\x27 are both empty (sheet \x27" ++ sheet ++
            "\x27, row " ++ toString rowNumber ++ ")" }
      else
        { check_name := "Quote Authorization (£200+ Check)"
          passed := false
          expected := "Quote reference and authorization"
          actual := "No quote ref, Auth: " ++ pyShowOS r.authorized
          severity := WARNING
          message := "Over £200 — authorized by \x27" ++
            pyShowOS r.authorized ++
            "\x27 but \x27QUOTE OVER £200\x27 is empty (sheet \x27" ++ sheet ++
            "\x27, row " ++ toString rowNumber ++ ")" }

/-- `InvoiceValidator._validate_nominal_code`. -/
def validateNominalCode (inv : Invoice) (r : PORecord) : Validation :=
  let invoiceCode := inv.nominal_code
  let poCode := r.nominal_code
  if !pyTruthyOS invoiceCode && !pyTruthyOS poCode then
    { check_name := "Nominal Code"
      passed := true
      expected := "Nominal code present"
      actual := "Missing from both invoice and PO"
      severity := WARNING
      message := "Nominal code missing from both invoice and PO record" }
  else if pyTruthyOS invoiceCode && pyTruthyOS poCode &&
      invoiceCode = poCode then
    { check_name := "Nominal Code"
      passed := true
      expected := pyShowOS poCode
      actual := pyShowOS invoiceCode
      severity := INFO
      message := "Nominal code matches: " ++ pyShowOS invoiceCode }
  else if pyTruthyOS invoiceCode && pyTruthyOS poCode &&
      invoiceCode ≠ poCode then
    { check_name := "Nominal Code"
      passed := false
      expected := pyShowOS poCode
      actual := pyShowOS invoiceCode
      severity := WARNING
      message := "Nominal code mismatch: invoice=" ++ pyShowOS invoiceCode ++
        ", PO=" ++ pyShowOS poCode }
  else
    let code := pyOrOS invoiceCode poCode
    { check_name := "Nominal Code"
      passed := true
      expected := "Nominal code present"
      actual := pyShowOS code
      severity := INFO
      message := "Nominal code: " ++ pyShowOS code ++ " (from " ++
        (if pyTruthyOS invoiceCode then "invoice" else "PO") ++ ")" }

/-- `InvoiceValidator._validate_amounts`: blocking failure for a
non-positive net amount, advisory pass above £10,000, informational pass
otherwise. -/
def validateAmounts (inv : Invoice) : Validation :=
  if inv.net_amount ≤ 0 then
    { check_name := "Amount Validation"
      passed := false
      expected := "Positive amount"
      actual := "£" ++ pyShowDecimal inv.net_amount
      severity := ERROR
      message := "Extracted net amount is £" ++ pyShowDecimal inv.net_amount ++
        " which is invalid. Check the PDF — the amount may not have been " ++
        "read correctly." }
  else if inv.net_amount > 10000 then
    { check_name := "Amount Validation"
      passed := true
      expected := "Amount under £10,000"
      actual := "£" ++ pyShowDecimal inv.net_amount
      severity := WARNING
      message := "High amount: £" ++ pyShowDecimal inv.net_amount ++
        " (exceeds £10,000 - please verify)" }
  else
    { check_name := "Amount Validation"
      passed := true
      expected := "Valid amount"
      actual := "£" ++ pyShowDecimal inv.net_amount
      severity := INFO
      message := "Amount validated: £" ++ pyShowDecimal inv.net_amount }

/-- Python `abs` on a rational, in an executable form. -/
def ratAbs (q : ℚ) : ℚ := if q < 0 then -q else q

theorem ratAbs_eq_abs (q : ℚ) : ratAbs q = |q| := by
  unfold ratAbs
  rcases lt_or_ge q 0 with h | h
  · rw [if_pos h, abs_of_neg h]
  · rw [if_neg (not_lt.mpr h), abs_of_nonneg h]

/-- `InvoiceValidator._validate_vat`: with all three amounts truthy
(non-zero — the dataclass amounts are non-optional, so zero is the
falsy/"missing" value), `net + vat` must equal the total within the
fixed £0.02 tolerance in exact decimal arithmetic; otherwise an
informational pass. -/
def validateVat (inv : Invoice) : Validation :=
  if inv.net_amount = 0 || inv.vat_amount = 0 || inv.total_amount = 0 then
    { check_name := "VAT Calculation"
      passed := true
      expected := "VAT calculation verified"
      actual := "Insufficient data"
      severity := INFO
      message := "VAT calculation not verified (missing data)" }
  else
    let calculatedTotal := inv.net_amount + inv.vat_amount
    let tolerance : ℚ := 2/100
    if ratAbs (calculatedTotal - inv.total_amount) ≤ tolerance then
      { check_name := "VAT Calculation"
        passed := true
        expected := "£" ++ formatFixed 2 calculatedTotal
        actual := "£" ++ formatFixed 2 inv.total_amount
        severity := INFO
        message := "VAT calculation correct: £" ++
          formatFixed 2 inv.net_amount ++ " + £" ++
          formatFixed 2 inv.vat_amount ++ " = £" ++
          formatFixed 2 inv.total_amount }
    else
      { check_name := "VAT Calculation"
        passed := false
        expected := "£" ++ formatFixed 2 calculatedTotal
        actual := "£" ++ formatFixed 2 inv.total_amount
        severity := WARNING
        message := "VAT calculation mismatch: Net £" ++
          formatFixed 2 inv.net_amount ++ " + VAT £" ++
          formatFixed 2 inv.vat_amount ++ " ≠ Total £" ++
          formatFixed 2 inv.total_amount }

/-- `InvoiceValidator.validate`, embedded over the matcher (`finder` is
`POMatcher.find_po_record` with its reader; a raise there propagates):
accumulate the matcher's outcomes; stop (finalizing) when no row was
matched or the matched row is already invoiced; otherwise run the four
policy validators in order and finalize. -/
def invoiceValidatorValidate
    (finder : Invoice → Except String (Option PORecord × List Validation))
    (quoteThreshold : ℚ) (inv : Invoice) : Except String ValidationResult :=
  match finder inv with
  | .error e => .error e
  | .ok (poRecord, poValidations) =>
    let result := mkValidationResult (some inv) poRecord inv.pdf_path
    let result := poValidations.foldl ValidationResult.add_validation result
    match poRecord with
    | none => .ok result.finalize
    | some r =>
      if r.is_invoiced then .ok result.finalize
      else
        let result := result.add_validation (validateNominalCode inv r)
        let result := result.add_validation (quoteValidate quoteThreshold inv r)
        let result := result.add_validation (validateAmounts inv)
        let result := result.add_validation (validateVat inv)
        .ok result.finalize

/-! ### ExcelWriter (`processors/excel_writer.py`)

An openpyxl worksheet is modelled as a grid of cell values addressed by
1-based row and column; the workbook is a named list of worksheets.
Cell fills (the "processed" highlight) carry no value and are not
modelled.  `update_po_record` returns the success flag together with
the resulting workbook. -/

/-- An openpyxl cell value: empty (`None`), a string, a number, or a
datetime (carried as its rendering; never compared). -/
inductive Cell where
  | blank
  | str (s : String)
  | num (q : ℚ)
  | date (d : String)
deriving DecidableEq, Repr

/-- Python truthiness of a cell value (`not existing`). -/
def cellFalsy : Cell → Bool
  | .blank => true
  | .str s => s = ""
  | .num q => q = 0
  | .date _ => false

/-- `str(cell_value)` as used by the nominal-code emptiness test.  The
exact numeric/date renderings are immaterial: they never strip to the
empty string. -/
def cellStr : Cell → String
  | .blank => "None"
  | .str s => s
  | .num q => pyShowDecimal q
  | .date d => d

/-- A worksheet: rows of cells, addressed 1-based. -/
structure Worksheet where
  rows : List (List Cell)
deriving DecidableEq, Repr

/-- `ws.max_row`. -/
def Worksheet.maxRow (ws : Worksheet) : Nat := ws.rows.length

/-- The cells of row `r` (1-based); openpyxl iterates the stored cells. -/
def Worksheet.row (ws : Worksheet) (r : Nat) : List Cell :=
  ws.rows.getD (r - 1) []

/-- `ws.cell(row=r, column=c).value` (out-of-range reads are `None`). -/
def Worksheet.cell (ws : Worksheet) (r c : Nat) : Cell :=
  (ws.rows.getD (r - 1) []).getD (c - 1) .blank

/-- Pad a list with a default up to length `n`. -/
def padTo (l : List α) (n : Nat) (d : α) : List α :=
  l ++ List.replicate (n - l.length) d

/-- `ws.cell(row=r, column=c).value = v` (openpyxl materialises missing
rows/cells). -/
def Worksheet.setCell (ws : Worksheet) (r c : Nat) (v : Cell) : Worksheet :=
  let rows := padTo ws.rows r []
  let theRow := padTo (rows.getD (r - 1) []) c .blank
  { rows := rows.set (r - 1) (theRow.set (c - 1) v) }

/-- A workbook: sheets by name (`wb.sheetnames` / `wb[name]`). -/
def Workbook : Type := List (String × Worksheet)

instance : DecidableEq Workbook := by unfold Workbook; infer_instance

/-- Replace one sheet's contents. -/
def wbSet (wb : Workbook) (name : String) (ws : Worksheet) : Workbook :=
  wb.map (fun p => if p.1 = name then (name, ws) else p)

/-- `ExcelWriter._find_header_row`: scan `range(1, min(20, max_row+1))`
for a string cell equal to `PO` (after strip/upper) or containing
`INVOICE NO`. -/
def findHeaderRowIn (ws : Worksheet) : Option Nat :=
  (List.range' 1 (min 20 (ws.maxRow + 1) - 1)).find? (fun rn =>
    (ws.row rn).any (fun cell =>
      match cell with
      | .str s =>
        s ≠ "" &&
          (let vu := pyUpper (pyStrip s)
           vu = "PO" || strContains vu "INVOICE NO")
      | _ => false))

/-- `ExcelWriter._find_column`: first cell of the header row whose
string value contains the (upper-cased) column name; 1-based column. -/
def findColumnIn (ws : Worksheet) (headerRow : Nat) (colName : String) :
    Option Nat :=
  let target := pyUpper colName
  ((ws.row headerRow).enum.find? (fun p =>
    match p.2 with
    | .str s => s ≠ "" && strContains (pyUpper s) target
    | _ => false)).map (fun p => p.1 + 1)

/-- `ExcelWriter.update_po_record`: locate the sheet, the header row and
the three required columns (failing with the workbook untouched when any
is missing), then write invoice number, amount and date, and the nominal
code only into an empty-looking cell. -/
def updatePORecord (wb : Workbook) (sheetName : String) (rowIndex : Nat)
    (invoiceNumber : String) (invoiceAmount : ℚ) (invoiceSignedDate : String)
    (nominalCode : String) : Bool × Workbook :=
  match wb.lookup sheetName with
  | none => (false, wb)
  | some ws =>
    match findHeaderRowIn ws with
    | none => (false, wb)
    | some headerRow =>
      let excelRow := headerRow + rowIndex + 1
      let colInvoiceNo := findColumnIn ws headerRow "INVOICE NO."
      let colInvoiceAmount := findColumnIn ws headerRow "INVOICE AMOUNT (EX VAT)"
      let colInvoiceSigned := findColumnIn ws headerRow "INVOICE SIGNED"
      match colInvoiceNo, colInvoiceAmount, colInvoiceSigned with
      | some cNo, some cAmt, some cSig =>
        let ws := ws.setCell excelRow cNo (.str invoiceNumber)
        let ws := ws.setCell excelRow cAmt (.num invoiceAmount)
        let ws := ws.setCell excelRow cSig (.date invoiceSignedDate)
        let ws :=
          if nominalCode ≠ "" then
            match findColumnIn ws headerRow "NOMINAL CODE" with
            | some cNom =>
              let existing := ws.cell excelRow cNom
              if cellFalsy existing || pyStrip (cellStr existing) = "" then
                ws.setCell excelRow cNom (.str nominalCode)
              else ws
            | none => ws
          else ws
        (true, wbSet wb sheetName ws)
      | _, _, _ => (false, wb)

/-! ## Supporting lemmas -/

theorem add_validation_po_record (r : ValidationResult) (v : Validation) :
    (r.add_validation v).po_record = r.po_record := rfl

theorem add_validation_validations (r : ValidationResult) (v : Validation) :
    (r.add_validation v).validations = r.validations ++ [v] := rfl

theorem foldl_add_validation_po_record (vs : List Validation) :
    ∀ r : ValidationResult,
      (vs.foldl ValidationResult.add_validation r).po_record = r.po_record := by
  induction vs with
  | nil => intro r; rfl
  | cons v vs ih => intro r; rw [List.foldl_cons, ih]; rfl

theorem foldl_add_validation_validations (vs : List Validation) :
    ∀ r : ValidationResult,
      (vs.foldl ValidationResult.add_validation r).validations =
        r.validations ++ vs := by
  induction vs with
  | nil => intro r; simp
  | cons v vs ih =>
    intro r
    rw [List.foldl_cons, ih, add_validation_validations, List.append_assoc]
    rfl

theorem foldl_add_validation_errors_ne_nil (vs : List Validation) :
    ∀ r : ValidationResult,
      ((∃ v ∈ vs, v.passed = false ∧ v.severity = ERROR) ∨ r.errors ≠ []) →
      (vs.foldl ValidationResult.add_validation r).errors ≠ [] := by
  induction vs with
  | nil =>
    intro r h
    rcases h with ⟨v, hv, _⟩ | h
    · exact absurd hv (List.not_mem_nil v)
    · exact h
  | cons v vs ih =>
    intro r h
    rw [List.foldl_cons]
    apply ih
    rcases h with ⟨w, hw, hwp, hws⟩ | h
    · rcases List.mem_cons.mp hw with rfl | hw'
      · right
        simp only [ValidationResult.add_validation, hwp, hws]
        simp
      · exact Or.inl ⟨w, hw', hwp, hws⟩
    · right
      simp only [ValidationResult.add_validation]
      intro hcontra
      split at hcontra <;> simp_all

theorem finalize_fields (r : ValidationResult) :
    (r.finalize).validations = r.validations ∧
    (r.finalize).errors = r.errors ∧
    (r.finalize).warnings = r.warnings ∧
    (r.finalize).po_record = r.po_record := ⟨rfl, rfl, rfl, rfl⟩

/-- Any failed ERROR-severity entry makes the `any` scan in `finalize`
fire. -/
theorem finalize_has_errors (r : ValidationResult)
    (h : ∃ v ∈ r.validations, v.passed = false ∧ v.severity = ERROR) :
    (r.finalize).can_auto_update = false ∧ (r.finalize).is_valid = false := by
  obtain ⟨v, hv, hp, hs⟩ := h
  have hany : r.validations.any (fun v => !v.passed && v.severity = ERROR) = true :=
    List.any_eq_true.mpr ⟨v, hv, by simp [hp, hs]⟩
  constructor
  · simp [ValidationResult.finalize, hany]
  · simp [ValidationResult.finalize, hany]

/-! ## C9 — blocking failures force `can_auto_update = false`, and the
disposition is a pure function of the outcomes and row presence -/

/-- C9: for every validation result, a failed ERROR-severity Outcome in
the list forces `can_auto_update = false` after `finalize`; moreover the
finalized `is_valid`/`can_auto_update` depend only on the validation
list and on whether a row was matched. -/
theorem C9_blocking_forces_no_auto_update (r : ValidationResult) :
    ((∃ v ∈ r.validations, v.passed = false ∧ v.severity = ERROR) →
      (r.finalize).can_auto_update = false) ∧
    (∀ r' : ValidationResult, r.validations = r'.validations →
      r.po_record.isSome = r'.po_record.isSome →
      (r.finalize).is_valid = (r'.finalize).is_valid ∧
      (r.finalize).can_auto_update = (r'.finalize).can_auto_update) := by
  constructor
  · intro h
    exact (finalize_has_errors r h).1
  · intro r' hv hp
    constructor
    · simp [ValidationResult.finalize, hv]
    · simp [ValidationResult.finalize, hv, hp]

/-- Concrete instance for C9: a result carrying one failed blocking
outcome (an invalid extracted amount) is finalized to
`can_auto_update = false` even though a row is matched. -/
def invC9 : Invoice :=
  { invoice_number := "INV900", invoice_date := none, supplier_name := "CJL"
    supplier_type := "CJL", po_number := "CJL316"
    store_location := "Portsmouth", store_address := ""
    net_amount := -5, vat_amount := -1, total_amount := -6
    nominal_code := none, description := "", raw_text := ""
    pdf_path := "c9.pdf" }

def poC9 : PORecord :=
  { po_number := some "CJL316", sheet_name := "CJL", row_index := 4
    store := some "Portsmouth" }

def vrC9 : ValidationResult :=
  (mkValidationResult (some invC9) (some poC9) "c9.pdf").add_validation
    (validateAmounts invC9)

theorem C9_witness :
    (∃ v ∈ vrC9.validations, v.passed = false ∧ v.severity = ERROR) ∧
    (vrC9.finalize).can_auto_update = false ∧
    (vrC9.finalize).is_valid = (vrC9.finalize).is_valid := by
  refine ⟨⟨validateAmounts invC9, by decide, by decide, by decide⟩, ?_, ?_⟩
  · exact (C9_blocking_forces_no_auto_update vrC9).1
      ⟨validateAmounts invC9, by decide, by decide, by decide⟩
  · exact ((C9_blocking_forces_no_auto_update vrC9).2 vrC9 rfl rfl).1

/-! ## C1 — advisory failures and `finalize`

The claim asserts that with a matched row, no failed blocking outcome
and at least one failed advisory outcome, `finalize` must yield the
review disposition (`can_auto_update = false`, review status summary).
`finalize` only scans for failed ERROR-severity outcomes, so such a
result is finalized to `can_auto_update = true` and summary `SUCCESS`. -/

/-- Invoice whose VAT check fails advisorily: 100 + 25 ≠ 120. -/
def invC1 : Invoice :=
  { invoice_number := "INV101", invoice_date := none, supplier_name := "CJL"
    supplier_type := "CJL", po_number := "CJL316"
    store_location := "Portsmouth", store_address := ""
    net_amount := 100, vat_amount := 25, total_amount := 120
    nominal_code := none, description := "", raw_text := ""
    pdf_path := "c1.pdf" }

def poC1 : PORecord :=
  { po_number := some "CJL316", sheet_name := "CJL", row_index := 4
    store := some "Portsmouth" }

/-- A result with a matched row and exactly one outcome: the failed
advisory (WARNING) VAT check. -/
def vrC1 : ValidationResult :=
  ((mkValidationResult (some invC1) (some poC1) "c1.pdf").add_validation
    (validateVat invC1)).finalize

/-- C1 counterexample: the result has a matched row, no failed blocking
outcome, and a failed advisory outcome, yet `finalize` yields
`can_auto_update = true` and status summary `SUCCESS` — not the review
disposition the claim requires. -/
theorem C1_counterexample :
    vrC1.po_record.isSome = true ∧
    vrC1.validations.all (fun v => !(!v.passed && v.severity = ERROR)) = true ∧
    vrC1.validations.any (fun v => !v.passed && v.severity = WARNING) = true ∧
    vrC1.can_auto_update = true ∧
    vrC1.get_status_summary = "SUCCESS" := by with_unfolding_all decide

/-- C1 amended: for every validation result with a matched row built by
accumulating outcomes none of which is a failed blocking (ERROR) one,
`finalize` yields `can_auto_update = true` and status summary `SUCCESS`,
even when failed advisory (WARNING) outcomes are present — advisory
failures do not force the review disposition. -/
theorem C1_amended (inv : Option Invoice) (po : PORecord) (path : String)
    (vs : List Validation)
    (hnoerr : ∀ v ∈ vs, ¬(v.passed = false ∧ v.severity = ERROR))
    (_hwarn : ∃ v ∈ vs, v.passed = false ∧ v.severity = WARNING) :
    ((vs.foldl ValidationResult.add_validation
        (mkValidationResult inv (some po) path)).finalize).can_auto_update =
      true ∧
    ((vs.foldl ValidationResult.add_validation
        (mkValidationResult inv (some po) path)).finalize).get_status_summary =
      "SUCCESS" := by
  set r := vs.foldl ValidationResult.add_validation
    (mkValidationResult inv (some po) path) with hr
  have hvals : r.validations = vs := by
    rw [hr, foldl_add_validation_validations]; rfl
  have hpo : r.po_record = some po := by
    rw [hr, foldl_add_validation_po_record]; rfl
  have hany : r.validations.any (fun v => !v.passed && v.severity = ERROR) =
      false := by
    rw [hvals]
    simp only [List.any_eq_false]
    intro v hv
    have := hnoerr v hv
    simp only [Bool.and_eq_true, Bool.not_eq_true', decide_eq_true_eq]
    intro hcontra
    exact this ⟨hcontra.1, hcontra.2⟩
  have hcan : (r.finalize).can_auto_update = true := by
    simp [ValidationResult.finalize, hany, hpo]
  refine ⟨hcan, ?_⟩
  simp [ValidationResult.get_status_summary, hcan]

theorem C1_amended_witness :
    (∀ v ∈ [validateVat invC1], ¬(v.passed = false ∧ v.severity = ERROR)) ∧
    (∃ v ∈ [validateVat invC1], v.passed = false ∧ v.severity = WARNING) ∧
    (([validateVat invC1].foldl ValidationResult.add_validation
        (mkValidationResult (some invC1) (some poC1) "c1.pdf")).finalize).can_auto_update =
      true := by
  have hpassed : (validateVat invC1).passed = false := by with_unfolding_all decide
  have hsev : (validateVat invC1).severity = WARNING := by with_unfolding_all decide
  have hnoerr : ∀ v ∈ [validateVat invC1], ¬(v.passed = false ∧ v.severity = ERROR) := by
    intro v hv
    rcases List.mem_singleton.mp hv with rfl
    rintro ⟨-, hs⟩
    rw [hsev] at hs
    exact ValidationSeverity.noConfusion hs
  have hwarn : ∃ v ∈ [validateVat invC1], v.passed = false ∧ v.severity = WARNING :=
    ⟨validateVat invC1, List.mem_singleton_self _, hpassed, hsev⟩
  exact ⟨hnoerr, hwarn,
    (C1_amended (some invC1) poC1 "c1.pdf" [validateVat invC1] hnoerr hwarn).1⟩

/-! ## C8 — tax-consistency check -/

/-- C8: when net, VAT and total are all present (non-zero — the
dataclass amounts are non-optional, so Python-falsy zero is the missing
value), the VAT check passes informationally exactly when
`|net + vat − total| ≤ 0.02` in exact decimal arithmetic and otherwise
fails advisorily; with any amount missing it passes informationally. -/
theorem C8_vat_consistency (inv : Invoice) :
    ((inv.net_amount = 0 ∨ inv.vat_amount = 0 ∨ inv.total_amount = 0) →
      (validateVat inv).passed = true ∧ (validateVat inv).severity = INFO) ∧
    (inv.net_amount ≠ 0 → inv.vat_amount ≠ 0 → inv.total_amount ≠ 0 →
      ((|inv.net_amount + inv.vat_amount - inv.total_amount| ≤ 2/100 →
        (validateVat inv).passed = true ∧ (validateVat inv).severity = INFO) ∧
      (¬(|inv.net_amount + inv.vat_amount - inv.total_amount| ≤ 2/100) →
        (validateVat inv).passed = false ∧
        (validateVat inv).severity = WARNING))) := by
  constructor
  · intro h
    have hcond :
        (decide (inv.net_amount = 0) || decide (inv.vat_amount = 0) ||
          decide (inv.total_amount = 0)) = true := by
      rcases h with h | h | h <;> simp [h]
    simp [validateVat, hcond]
  · intro h1 h2 h3
    have hcond :
        (decide (inv.net_amount = 0) || decide (inv.vat_amount = 0) ||
          decide (inv.total_amount = 0)) = false := by
      simp [h1, h2, h3]
    constructor
    · intro hle
      have habs : ratAbs (inv.net_amount + inv.vat_amount - inv.total_amount) ≤
          2/100 := by rw [ratAbs_eq_abs]; exact hle
      simp [validateVat, hcond, habs]
    · intro hgt
      have habs : ¬(ratAbs (inv.net_amount + inv.vat_amount - inv.total_amount) ≤
          2/100) := by rw [ratAbs_eq_abs]; exact hgt
      simp [validateVat, hcond, habs]

/-- An invoice whose amounts are all present but inconsistent
(100 + 25 ≠ 120). -/
def invC8bad : Invoice :=
  { invoice_number := "INV801", invoice_date := none, supplier_name := "CJL"
    supplier_type := "CJL", po_number := "CJL316"
    store_location := "Portsmouth", store_address := ""
    net_amount := 100, vat_amount := 25, total_amount := 120
    nominal_code := none, description := "", raw_text := ""
    pdf_path := "c8.pdf" }

/-- An invoice with a missing (zero) VAT amount. -/
def invC8miss : Invoice :=
  { invC8bad with invoice_number := "INV802", vat_amount := 0 }

theorem C8_witness :
    ((validateVat invC8bad).passed = false ∧
      (validateVat invC8bad).severity = WARNING) ∧
    ((validateVat invC8miss).passed = true ∧
      (validateVat invC8miss).severity = INFO) := by
  constructor
  · exact ((C8_vat_consistency invC8bad).2 (by with_unfolding_all decide)
      (by with_unfolding_all decide) (by with_unfolding_all decide)).2
      (by rw [← ratAbs_eq_abs]; with_unfolding_all decide)
  · exact (C8_vat_consistency invC8miss).1 (Or.inr (Or.inl rfl))

/-! ## C10 — similarity scorer -/

/-- C10: `fuzzy_match_score` (the `similarity` scorer) returns 100 on
every identical non-empty normalized string, and 0 whenever either
input is `None` or empty; it is a pure function returning without
raising. -/
theorem C10_similarity (x : String) :
    (x ≠ "" → normalizeString x = x →
      fuzzyMatchScore (some x) (some x) = 100) ∧
    (∀ y : Option String,
      fuzzyMatchScore none y = 0 ∧ fuzzyMatchScore (some "") y = 0 ∧
      fuzzyMatchScore y none = 0 ∧ fuzzyMatchScore y (some "") = 0) := by
  constructor
  · intro hx _
    have ht : pyTruthyOS (some x) = true := by simp [pyTruthyOS, hx]
    simp [fuzzyMatchScore, ht, tokenSortScore, fuzzSimpleScore]
  · intro y
    refine ⟨?_, ?_, ?_, ?_⟩
    · simp [fuzzyMatchScore, pyTruthyOS]
    · simp [fuzzyMatchScore, pyTruthyOS]
    · simp [fuzzyMatchScore, pyTruthyOS]
    · simp [fuzzyMatchScore, pyTruthyOS]

theorem C10_witness :
    ("portsmouth" ≠ "") ∧ normalizeString "portsmouth" = "portsmouth" ∧
    fuzzyMatchScore (some "portsmouth") (some "portsmouth") = 100 ∧
    fuzzyMatchScore (some "") (some "portsmouth") = 0 := by
  refine ⟨by decide, by decide, ?_, ?_⟩
  · exact (C10_similarity "portsmouth").1 (by decide) (by decide)
  · exact ((C10_similarity "portsmouth").2 (some "portsmouth")).2.1

/-! ## Matcher case analysis -/

/-- Post-match outcomes carry only the duplicate and store check names. -/
theorem postMatch_names (inv : Invoice) (r : PORecord) :
    ∀ v ∈ postMatchValidations inv r,
      v.check_name = "Duplicate Invoice Check" ∨ v.check_name = "Store Match" := by
  intro v hv
  unfold postMatchValidations at hv
  rcases List.mem_append.mp hv with h | h
  · split at h <;> simp_all [duplicateFailValidation, duplicatePassValidation]
  · right
    split at h
    · rcases List.mem_singleton.mp h with rfl
      simp only [storeMatchValidation]
      split <;> simp
    · exact absurd h (List.not_mem_nil v)

/-- Every successful match returns the strategy outcome(s) followed by
the post-match outcomes. -/
theorem matcher_ok_some
    (L1 L2 : String → String → Except String (Option PORecord))
    (L3 : String → Invoice → Except String (List (PORecord × ℚ)))
    (inv : Invoice) (r : PORecord) (vals : List Validation)
    (h : matcherFindPORecord L1 L2 L3 inv = .ok (some r, vals)) :
    ∃ pre, vals = pre ++ postMatchValidations inv r ∧
      ∀ v ∈ pre,
        v.check_name = "PO Match" ∨ v.check_name = "PO Number Warning" := by
  unfold matcherFindPORecord at h
  cases hs : getSheetName inv.supplier_type with
  | none => rw [hs] at h; simp at h
  | some sheetName =>
    rw [hs] at h
    dsimp only at h
    cases h1 : (if pyTruthyStrip inv.po_number then L1 inv.po_number sheetName
        else .ok none) with
    | error e => rw [h1] at h; simp at h
    | ok o1 =>
      rw [h1] at h
      cases o1 with
      | some r1 =>
        dsimp only at h
        simp only [Except.ok.injEq, Prod.mk.injEq, Option.some.injEq] at h
        obtain ⟨rfl, rfl⟩ := h
        exact ⟨[strat1Validation inv sheetName], rfl, by
          intro v hv
          rcases List.mem_singleton.mp hv with rfl
          left; rfl⟩
      | none =>
        dsimp only at h
        cases h2 : (if pyTruthyStrip inv.invoice_number then
            L2 inv.invoice_number sheetName else .ok none) with
        | error e => rw [h2] at h; simp at h
        | ok o2 =>
          rw [h2] at h
          cases o2 with
          | some r2 =>
            dsimp only at h
            simp only [Except.ok.injEq, Prod.mk.injEq, Option.some.injEq] at h
            obtain ⟨rfl, rfl⟩ := h
            exact ⟨[strat2Validation inv sheetName r2], rfl, by
              intro v hv
              rcases List.mem_singleton.mp hv with rfl
              left; rfl⟩
          | none =>
            dsimp only at h
            cases h3 : L3 sheetName inv with
            | error e => rw [h3] at h; simp at h
            | ok cands =>
              rw [h3] at h
              cases cands with
              | nil => simp at h
              | cons c rest =>
                obtain ⟨best, bestScore⟩ := c
                dsimp only at h
                by_cases hth : bestScore ≥ FUZZY_MATCH_THRESHOLD
                · rw [if_pos hth] at h
                  simp only [Except.ok.injEq, Prod.mk.injEq,
                    Option.some.injEq] at h
                  obtain ⟨rfl, rfl⟩ := h
                  refine ⟨fuzzyAcceptValidation inv sheetName best bestScore ::
                    (if inv.po_number = "" then [poNumberWarnValidation]
                      else []), by simp, ?_⟩
                  intro v hv
                  rcases List.mem_cons.mp hv with rfl | hv2
                  · left; rfl
                  · right
                    split at hv2
                    · rcases List.mem_singleton.mp hv2 with rfl; rfl
                    · exact absurd hv2 (List.not_mem_nil v)
                · rw [if_neg hth] at h
                  simp at h

/-! ## C3 — duplicate (already-settled) rows -/

/-- C3: whenever any strategy matches a row that is already invoiced,
the matcher emits the failing blocking duplicate outcome, the validator
stops before any policy validator (nominal code, quote authorization,
amount sanity, VAT consistency), and the final disposition is failed
(`can_auto_update = false`, summary `ERROR`), for every invoice and
every ledger state. -/
theorem C3_duplicate_blocks
    (L1 L2 : String → String → Except String (Option PORecord))
    (L3 : String → Invoice → Except String (List (PORecord × ℚ)))
    (qt : ℚ) (inv : Invoice) (r : PORecord) (vals : List Validation)
    (hmatch : matcherFindPORecord L1 L2 L3 inv = .ok (some r, vals))
    (hinv : r.is_invoiced = true) :
    duplicateFailValidation r ∈ vals ∧
    (duplicateFailValidation r).passed = false ∧
    (duplicateFailValidation r).severity = ERROR ∧
    ∃ res, invoiceValidatorValidate (matcherFindPORecord L1 L2 L3) qt inv =
        .ok res ∧
      res.validations = vals ∧
      (∀ v ∈ res.validations,
        v.check_name ≠ "Nominal Code" ∧
        v.check_name ≠ "Quote Authorization (£200+ Check)" ∧
        v.check_name ≠ "Amount Validation" ∧
        v.check_name ≠ "VAT Calculation") ∧
      res.can_auto_update = false ∧
      res.get_status_summary = "ERROR" := by
  obtain ⟨pre, hvals, hpre⟩ := matcher_ok_some L1 L2 L3 inv r vals hmatch
  have hdup : duplicateFailValidation r ∈ vals := by
    rw [hvals]
    refine List.mem_append_right _ ?_
    simp [postMatchValidations, hinv]
  refine ⟨hdup, rfl, rfl, ?_⟩
  refine ⟨((vals.foldl ValidationResult.add_validation
    (mkValidationResult (some inv) (some r) inv.pdf_path)).finalize),
    ?_, ?_, ?_, ?_, ?_⟩
  · unfold invoiceValidatorValidate
    rw [hmatch]
    dsimp only
    rw [if_pos hinv]
  · rw [(finalize_fields _).1, foldl_add_validation_validations]
    rfl
  · intro v hv
    rw [(finalize_fields _).1, foldl_add_validation_validations] at hv
    have hv' : v ∈ vals := by simpa [mkValidationResult] using hv
    rw [hvals] at hv'
    rcases List.mem_append.mp hv' with hp | hp
    · rcases hpre v hp with hn | hn <;> rw [hn] <;>
        exact ⟨by decide, by decide, by decide, by decide⟩
    · rcases postMatch_names inv r v hp with hn | hn <;> rw [hn] <;>
        exact ⟨by decide, by decide, by decide, by decide⟩
  · refine (finalize_has_errors _ ?_).1
    rw [foldl_add_validation_validations]
    exact ⟨duplicateFailValidation r, by
      simpa [mkValidationResult] using hdup, rfl, rfl⟩
  · have herr : ((vals.foldl ValidationResult.add_validation
        (mkValidationResult (some inv) (some r) inv.pdf_path)).finalize).errors ≠
          [] := by
      rw [(finalize_fields _).2.1]
      apply foldl_add_validation_errors_ne_nil
      exact Or.inl ⟨duplicateFailValidation r, hdup, rfl, rfl⟩
    have hcan : ((vals.foldl ValidationResult.add_validation
        (mkValidationResult (some inv) (some r) inv.pdf_path)).finalize).can_auto_update =
          false := by
      refine (finalize_has_errors _ ?_).1
      rw [foldl_add_validation_validations]
      exact ⟨duplicateFailValidation r, by
        simpa [mkValidationResult] using hdup, rfl, rfl⟩
    unfold ValidationResult.get_status_summary
    rw [hcan]
    simp [herr]

/-- Concrete already-invoiced row for the C3 witness. -/
def rC3 : PORecord :=
  { po_number := some "CJL316", sheet_name := "CJL", row_index := 7
    store := none, invoice_no := some "INV9" }

def invC3 : Invoice :=
  { invoice_number := "INV300", invoice_date := none, supplier_name := "CJL"
    supplier_type := "CJL", po_number := "CJL316"
    store_location := "Portsmouth", store_address := ""
    net_amount := 150, vat_amount := 30, total_amount := 180
    nominal_code := none, description := "", raw_text := ""
    pdf_path := "c3.pdf" }

/-- Reader stub whose key strategy hits the already-invoiced row. -/
def lookupC3 : String → String → Except String (Option PORecord) :=
  fun _ _ => .ok (some rC3)

def lookupNoneC3 : String → String → Except String (Option PORecord) :=
  fun _ _ => .ok none

def candsNoneC3 : String → Invoice → Except String (List (PORecord × ℚ)) :=
  fun _ _ => .ok []

def valsC3 : List Validation :=
  [strat1Validation invC3 "CJL", duplicateFailValidation rC3]

theorem C3_witness :
    matcherFindPORecord lookupC3 lookupNoneC3 candsNoneC3 invC3 =
      .ok (some rC3, valsC3) ∧
    rC3.is_invoiced = true ∧
    duplicateFailValidation rC3 ∈ valsC3 ∧
    (∃ res, invoiceValidatorValidate
        (matcherFindPORecord lookupC3 lookupNoneC3 candsNoneC3) 200 invC3 =
          .ok res ∧
      res.can_auto_update = false ∧ res.get_status_summary = "ERROR") := by
  have h1 : matcherFindPORecord lookupC3 lookupNoneC3 candsNoneC3 invC3 =
      .ok (some rC3, valsC3) := by rfl
  have h2 : rC3.is_invoiced = true := by decide
  obtain ⟨hdup, -, -, res, hres, -, -, hcan, hsum⟩ :=
    C3_duplicate_blocks lookupC3 lookupNoneC3 candsNoneC3 200 invC3 rC3
      valsC3 h1 h2
  exact ⟨h1, h2, hdup, res, hres, hcan, hsum⟩

/-! ## C4 — fuzzy strategy -/

/-- C4: for every invoice that reaches the fuzzy strategy with a
non-empty candidate list, a top score at or above the 40-point threshold
accepts the match, with a passing outcome whose severity is advisory
below 60 and informational otherwise, plus the extra advisory outcome
exactly when the invoice carries no PO reference; a top score below the
threshold returns no row and a single failing blocking outcome whose
message depends only on the closest at-most-three candidates. -/
theorem C4_fuzzy_strategy
    (L1 L2 : String → String → Except String (Option PORecord))
    (L3 : String → Invoice → Except String (List (PORecord × ℚ)))
    (inv : Invoice) (sheet : String) (r : PORecord) (s : ℚ)
    (rest : List (PORecord × ℚ))
    (hs : getSheetName inv.supplier_type = some sheet)
    (h1 : pyTruthyStrip inv.po_number = false ∨
      L1 inv.po_number sheet = .ok none)
    (h2 : pyTruthyStrip inv.invoice_number = false ∨
      L2 inv.invoice_number sheet = .ok none)
    (h3 : L3 sheet inv = .ok ((r, s) :: rest)) :
    (s ≥ 40 →
      matcherFindPORecord L1 L2 L3 inv =
        .ok (some r, fuzzyAcceptValidation inv sheet r s ::
          (if inv.po_number = "" then [poNumberWarnValidation] else []) ++
          postMatchValidations inv r) ∧
      (fuzzyAcceptValidation inv sheet r s).passed = true ∧
      (fuzzyAcceptValidation inv sheet r s).severity =
        (if s < 60 then WARNING else INFO) ∧
      (poNumberWarnValidation ∈ (fuzzyAcceptValidation inv sheet r s ::
          (if inv.po_number = "" then [poNumberWarnValidation] else []) ++
          postMatchValidations inv r) ↔ inv.po_number = "") ∧
      poNumberWarnValidation.passed = true ∧
      poNumberWarnValidation.severity = WARNING) ∧
    (s < 40 →
      matcherFindPORecord L1 L2 L3 inv =
        .ok (none, [noConfidentValidation sheet ((r, s) :: rest) s]) ∧
      (noConfidentValidation sheet ((r, s) :: rest) s).passed = false ∧
      (noConfidentValidation sheet ((r, s) :: rest) s).severity = ERROR ∧
      (noConfidentValidation sheet ((r, s) :: rest) s).message =
        (noConfidentValidation sheet (((r, s) :: rest).take 3) s).message ∧
      (((r, s) :: rest).take 3).length ≤ 3) := by
  have hstep1 : (if pyTruthyStrip inv.po_number then L1 inv.po_number sheet
      else .ok none) = .ok none := by
    rcases h1 with h | h
    · simp [h]
    · split <;> simp [h]
  have hstep2 : (if pyTruthyStrip inv.invoice_number then
      L2 inv.invoice_number sheet else .ok none) = .ok none := by
    rcases h2 with h | h
    · simp [h]
    · split <;> simp [h]
  have hred : matcherFindPORecord L1 L2 L3 inv =
      (if s ≥ FUZZY_MATCH_THRESHOLD then
        .ok (some r, fuzzyAcceptValidation inv sheet r s ::
          (if inv.po_number = "" then [poNumberWarnValidation] else []) ++
          postMatchValidations inv r)
      else .ok (none, [noConfidentValidation sheet ((r, s) :: rest) s])) := by
    unfold matcherFindPORecord
    rw [hs]
    dsimp only
    rw [hstep1]
    dsimp only
    rw [hstep2]
    dsimp only
    rw [h3]
  constructor
  · intro hge
    have hth : s ≥ FUZZY_MATCH_THRESHOLD := hge
    rw [hred, if_pos hth]
    refine ⟨rfl, rfl, rfl, ?_, rfl, rfl⟩
    constructor
    · intro hmem
      by_contra hne
      rw [if_neg hne] at hmem
      rcases List.mem_cons.mp hmem with heq | hmem'
      · have := congrArg Validation.check_name heq
        simp [poNumberWarnValidation, fuzzyAcceptValidation] at this
      · have hmem2 : poNumberWarnValidation ∈ postMatchValidations inv r := by
          simpa using hmem'
        rcases postMatch_names inv r _ hmem2 with hn | hn <;>
          simp [poNumberWarnValidation] at hn
    · intro hpo
      rw [if_pos hpo]
      exact List.mem_cons_of_mem _ (List.mem_append_left _
        (List.mem_singleton_self _))
  · intro hlt
    have hth : ¬(s ≥ FUZZY_MATCH_THRESHOLD) := by
      unfold FUZZY_MATCH_THRESHOLD
      exact not_le.mpr hlt
    rw [hred, if_neg hth]
    refine ⟨rfl, rfl, rfl, ?_, ?_⟩
    · simp [noConfidentValidation, List.take_take]
    · exact List.length_take_le 3 ((r, s) :: rest)

/-- Invoice with no PO reference and no invoice number, forcing the
fuzzy strategy. -/
def invC4 : Invoice :=
  { invoice_number := "", invoice_date := none, supplier_name := "Amazon"
    supplier_type := "CJL", po_number := ""
    store_location := "Portsmouth", store_address := ""
    net_amount := 600, vat_amount := 120, total_amount := 720
    nominal_code := none, description := "", raw_text := ""
    pdf_path := "c4.pdf" }

def rC4 : PORecord :=
  { po_number := some "CJL555", sheet_name := "CJL", row_index := 9
    store := some "Portsmouth" }

/-- Candidate list whose top score is 55 (above 40, below 60). -/
def candsC4 : String → Invoice → Except String (List (PORecord × ℚ)) :=
  fun _ _ => .ok [(rC4, 55)]

theorem C4_witness :
    getSheetName invC4.supplier_type = some "CJL" ∧
    pyTruthyStrip invC4.po_number = false ∧
    pyTruthyStrip invC4.invoice_number = false ∧
    candsC4 "CJL" invC4 = .ok [(rC4, 55)] ∧
    matcherFindPORecord lookupNoneC3 lookupNoneC3 candsC4 invC4 =
      .ok (some rC4, fuzzyAcceptValidation invC4 "CJL" rC4 55 ::
        [poNumberWarnValidation] ++ postMatchValidations invC4 rC4) ∧
    (fuzzyAcceptValidation invC4 "CJL" rC4 55).severity = WARNING ∧
    poNumberWarnValidation ∈ (fuzzyAcceptValidation invC4 "CJL" rC4 55 ::
      (if invC4.po_number = "" then [poNumberWarnValidation] else []) ++
      postMatchValidations invC4 rC4) := by
  have hs : getSheetName invC4.supplier_type = some "CJL" := by rfl
  have h1 : pyTruthyStrip invC4.po_number = false := by decide
  have h2 : pyTruthyStrip invC4.invoice_number = false := by decide
  have h3 : candsC4 "CJL" invC4 = .ok [(rC4, 55)] := rfl
  obtain ⟨heq, -, hsev, hiff, -, -⟩ :=
    (C4_fuzzy_strategy lookupNoneC3 lookupNoneC3 candsC4 invC4 "CJL" rC4 55 []
      hs (Or.inl h1) (Or.inl h2) h3).1 (by decide)
  have hifeq : (if invC4.po_number = "" then [poNumberWarnValidation]
      else ([] : List Validation)) = [poNumberWarnValidation] := rfl
  refine ⟨hs, h1, h2, h3, ?_, ?_, hiff.mpr rfl⟩
  · rw [heq, hifeq]
  · rw [hsev]; decide

/-! ## C7 — unknown supplier type -/

/-- C7: when the invoice's supplier type maps to no sheet, the matcher
short-circuits before any strategy runs, returning no row and exactly
one failing blocking outcome whose message names the unknown supplier
type as such; its check name (`Sheet Selection`) differs from the
`PO Match` check name that every no-match outcome carries, so the two
are distinguishable. -/
theorem C7_unknown_supplier_type
    (L1 L2 : String → String → Except String (Option PORecord))
    (L3 : String → Invoice → Except String (List (PORecord × ℚ)))
    (inv : Invoice)
    (hs : getSheetName inv.supplier_type = none) :
    matcherFindPORecord L1 L2 L3 inv =
      .ok (none, [unknownSheetValidation inv.supplier_type]) ∧
    (unknownSheetValidation inv.supplier_type).passed = false ∧
    (unknownSheetValidation inv.supplier_type).severity = ERROR ∧
    strContains (unknownSheetValidation inv.supplier_type).message
      "Unknown supplier type" = true ∧
    strContains (unknownSheetValidation inv.supplier_type).message
      inv.supplier_type = true ∧
    (unknownSheetValidation inv.supplier_type).check_name = "Sheet Selection" ∧
    (∀ inv' sheet, (noMatchValidation inv' sheet).check_name = "PO Match") ∧
    (∀ sheet cands bestScore,
      (noConfidentValidation sheet cands bestScore).check_name = "PO Match") ∧
    "Sheet Selection" ≠ "PO Match" := by
  have h27 : ("Unknown supplier type \x27" : String).data =
      "Unknown supplier type".data ++ " \x27".data := by decide
  refine ⟨?_, rfl, rfl, ?_, ?_, rfl, ?_, ?_, by decide⟩
  · unfold matcherFindPORecord
    rw [hs]
  · rw [strContains]
    apply decide_eq_true
    refine ⟨[], " \x27".data ++ inv.supplier_type.data ++
      ("\x27, cannot determine sheet").data, ?_⟩
    simp [unknownSheetValidation, h27]
  · rw [strContains]
    apply decide_eq_true
    refine ⟨("Unknown supplier type \x27").data,
      ("\x27, cannot determine sheet").data, ?_⟩
    simp [unknownSheetValidation]
  · intro inv' sheet
    rfl
  · intro sheet cands bestScore
    rfl

def invC7 : Invoice :=
  { invoice_number := "INV700", invoice_date := none
    supplier_name := "Mystery Corp", supplier_type := "MYSTERY"
    po_number := "X1", store_location := "Leeds", store_address := ""
    net_amount := 10, vat_amount := 2, total_amount := 12
    nominal_code := none, description := "", raw_text := ""
    pdf_path := "c7.pdf" }

theorem C7_witness :
    getSheetName invC7.supplier_type = none ∧
    matcherFindPORecord lookupC3 lookupNoneC3 candsNoneC3 invC7 =
      .ok (none, [unknownSheetValidation invC7.supplier_type]) ∧
    strContains (unknownSheetValidation invC7.supplier_type).message
      "Unknown supplier type" = true := by
  have hs : getSheetName invC7.supplier_type = none := by rfl
  obtain ⟨heq, -, -, hmsg, -⟩ :=
    C7_unknown_supplier_type lookupC3 lookupNoneC3 candsNoneC3 invC7 hs
  exact ⟨hs, heq, hmsg⟩

/-! ## C2 — `validate` raises on every successful match

`_row_to_po_record` passes a `company_name=` keyword argument that the
`PORecord` dataclass does not declare, so the constructor raises
`TypeError` whenever a row is converted — that is, on every successful
lookup.  The exception propagates out of `InvoiceValidator.validate`,
contradicting the claim that exceptions are reserved for
environment/configuration failures. -/

/-- Sheet with one row whose `PO` cell matches the invoice below. -/
def dfC2 : DataFrame :=
  { columns := ["PO", "STORE"]
    rows := [[("PO", some "CJL316"), ("STORE", some "Portsmouth")]] }

def invC2 : Invoice :=
  { invoice_number := "INV200", invoice_date := none, supplier_name := "CJL"
    supplier_type := "CJL", po_number := "CJL316"
    store_location := "Portsmouth", store_address := ""
    net_amount := 150, vat_amount := 30, total_amount := 180
    nominal_code := none, description := "", raw_text := ""
    pdf_path := "c2.pdf" }

/-- C2: the `PORecord` dataclass call in `_row_to_po_record` passes the
undeclared `company_name` keyword, so the reader lookup — and with it
the whole `validate` pipeline — raises `TypeError` on a well-formed
invoice whose PO number is present in the sheet. -/
theorem C2_validate_raises :
    dataclassAcceptsKwargs poRecordFieldNames rowToPORecordKwargNames = false ∧
    rowToPORecordKwargNames.contains "company_name" = true ∧
    poRecordFieldNames.contains "company_name" = false ∧
    readerFindPORecord (some dfC2) "CJL316" "CJL" =
      .error rowToPORecordTypeError ∧
    invoiceValidatorValidate
      (matcherFindPORecord (readerFindPORecord (some dfC2))
        (readerFindByInvoiceNumber (some dfC2)) (findPOCandidates (some dfC2)))
      200 invC2 = .error rowToPORecordTypeError :=
  ⟨by decide, by decide, by decide, rfl, rfl⟩

/-! ## C5 — `find_po_candidates` raises on every scoring row

The same dataclass slip makes `find_po_candidates` raise `TypeError` as
soon as any row scores above zero, so it can never return a non-empty
candidate list; the scoring loop itself computes the documented weighted
blend before the constructor is reached. -/

theorem candidatesLoop_ok_nil (df : DataFrame) (sheetName : String)
    (inv : Invoice) :
    ∀ rows l, candidatesLoop df sheetName inv rows = .ok l → l = [] := by
  intro rows
  induction rows with
  | nil =>
    intro l h
    simpa [candidatesLoop] using h.symm
  | cons p rest ih =>
    intro l h
    obtain ⟨idx, row⟩ := p
    unfold candidatesLoop at h
    dsimp only at h
    by_cases hsc : scoreRow df inv row > 0
    · rw [if_pos hsc] at h
      have hraise : rowToPORecord row sheetName idx =
          .error rowToPORecordTypeError := by
        unfold rowToPORecord
        rw [if_neg]
        intro hc
        exact absurd hc (by decide)
      rw [hraise] at h
      exact absurd h (by simp)
    · rw [if_neg hsc] at h
      exact ih l h

def dfC5 : DataFrame :=
  { columns := ["PO", "STORE"]
    rows := [[("PO", some "CJL999"), ("STORE", some "Leeds")]] }

def rowC5 : DFRow := [("PO", some "CJL999"), ("STORE", some "Leeds")]

/-- Invoice built so that only the store component scores:
0.50 × 100 = 50. -/
def invC5 : Invoice :=
  { invoice_number := "", invoice_date := none, supplier_name := ""
    supplier_type := "CJL", po_number := ""
    store_location := "Leeds", store_address := ""
    net_amount := 0, vat_amount := 0, total_amount := 0
    nominal_code := none, description := "", raw_text := ""
    pdf_path := "c5.pdf" }

/-- C5: `find_po_candidates` can only ever return the empty list — any
row with a positive weighted score reaches the broken `PORecord`
constructor and raises; at a concrete sheet whose single row scores
50 (= 0.50 × a perfect store similarity) the call raises `TypeError`
instead of returning the sorted candidate list. -/
theorem C5_candidates_raise :
    (∀ df sheetName inv l,
      findPOCandidates df sheetName inv = .ok l → l = []) ∧
    scoreRow dfC5 invC5 rowC5 = 50 ∧
    findPOCandidates (some dfC5) "CJL" invC5 =
      .error rowToPORecordTypeError := by
  refine ⟨?_, ?_, ?_⟩
  · intro df sheetName inv l h
    match df with
    | none => simpa [findPOCandidates] using h.symm
    | some df =>
      unfold findPOCandidates at h
      dsimp only at h
      cases hloop : candidatesLoop df sheetName inv df.rows.enum with
      | error e => rw [hloop] at h; simp [Except.map] at h
      | ok l' =>
        rw [hloop] at h
        simp only [Except.map, Except.ok.injEq] at h
        have : l' = [] := candidatesLoop_ok_nil df sheetName inv _ l' hloop
        rw [← h, this]
        rfl
  · with_unfolding_all rfl
  · with_unfolding_all rfl

theorem C5_witness :
    findPOCandidates none "CJL" invC5 = .ok ([] : List (PORecord × ℚ)) ∧
    ([] : List (PORecord × ℚ)) = [] :=
  ⟨rfl, C5_candidates_raise.1 none "CJL" invC5 [] rfl⟩

/-! ## Worksheet lemmas for C6 -/

theorem padTo_length (l : List α) (n : Nat) (d : α) :
    (padTo l n d).length = max l.length n := by
  unfold padTo
  simp only [List.length_append, List.length_replicate]
  omega

theorem padTo_getD (l : List α) (n : Nat) (d : α) (i : Nat) :
    (padTo l n d).getD i d = l.getD i d := by
  unfold padTo
  rw [List.getD_eq_getElem?_getD, List.getD_eq_getElem?_getD]
  rcases lt_or_ge i l.length with h | h
  · rw [List.getElem?_append, if_pos h]
  · rw [List.getElem?_append, if_neg (not_lt.mpr h), List.getElem?_replicate,
      List.getElem?_eq_none h]
    split <;> rfl

theorem setCell_cell_self (ws : Worksheet) (r c : Nat) (v : Cell)
    (hr : 1 ≤ r) (hc : 1 ≤ c) : (ws.setCell r c v).cell r c = v := by
  unfold Worksheet.setCell Worksheet.cell
  dsimp only
  have hlen : r - 1 < (padTo ws.rows r ([] : List Cell)).length := by
    rw [padTo_length]; omega
  have hlen2 : c - 1 <
      (padTo ((padTo ws.rows r []).getD (r-1) []) c Cell.blank).length := by
    rw [padTo_length]; omega
  rw [List.getD_eq_getElem?_getD, List.getD_eq_getElem?_getD,
    List.getElem?_set_self hlen, Option.getD_some,
    List.getElem?_set_self hlen2, Option.getD_some]

theorem setCell_row_other (ws : Worksheet) (r c : Nat) (v : Cell)
    (r' : Nat) (hr : 1 ≤ r) (hr' : 1 ≤ r') (hne : r' ≠ r) :
    (ws.setCell r c v).row r' = ws.row r' := by
  unfold Worksheet.setCell Worksheet.row
  dsimp only
  rw [List.getD_eq_getElem?_getD, List.getElem?_set_ne (by omega),
    ← List.getD_eq_getElem?_getD, padTo_getD]

theorem setCell_cell_other_row (ws : Worksheet) (r c : Nat) (v : Cell)
    (r' c' : Nat) (hr : 1 ≤ r) (hr' : 1 ≤ r') (hne : r' ≠ r) :
    (ws.setCell r c v).cell r' c' = ws.cell r' c' := by
  show ((ws.setCell r c v).row r').getD (c' - 1) Cell.blank =
    (ws.row r').getD (c' - 1) Cell.blank
  rw [setCell_row_other ws r c v r' hr hr' hne]

theorem setCell_cell_other_col (ws : Worksheet) (r c : Nat) (v : Cell)
    (c' : Nat) (hr : 1 ≤ r) (hc : 1 ≤ c) (hc' : 1 ≤ c') (hne : c' ≠ c) :
    (ws.setCell r c v).cell r c' = ws.cell r c' := by
  unfold Worksheet.setCell Worksheet.cell
  dsimp only
  have hlen : r - 1 < (padTo ws.rows r ([] : List Cell)).length := by
    rw [padTo_length]; omega
  rw [List.getD_eq_getElem?_getD, List.getD_eq_getElem?_getD,
    List.getElem?_set_self hlen, Option.getD_some,
    List.getElem?_set_ne (by omega), ← List.getD_eq_getElem?_getD,
    padTo_getD, padTo_getD]

/-! ## Number renderings contain no whitespace (for the nominal-cell
emptiness test) -/

theorem pyIsSpace_digitChar (n : Nat) :
    pyIsSpace (Nat.digitChar n) = false := by
  rcases Nat.lt_or_ge n 16 with h | h
  · interval_cases n <;> decide
  · have hne : ∀ k, k < 16 → ¬ n = k := fun k hk => by omega
    have hstar : Nat.digitChar n = '*' := by
      unfold Nat.digitChar
      rw [if_neg (hne 0 (by decide)), if_neg (hne 1 (by decide)),
        if_neg (hne 2 (by decide)), if_neg (hne 3 (by decide)),
        if_neg (hne 4 (by decide)), if_neg (hne 5 (by decide)),
        if_neg (hne 6 (by decide)), if_neg (hne 7 (by decide)),
        if_neg (hne 8 (by decide)), if_neg (hne 9 (by decide)),
        if_neg (hne 10 (by decide)), if_neg (hne 11 (by decide)),
        if_neg (hne 12 (by decide)), if_neg (hne 13 (by decide)),
        if_neg (hne 14 (by decide)), if_neg (hne 15 (by decide))]
    rw [hstar]
    decide

theorem toDigitsCore_no_space (b : Nat) :
    ∀ (fuel n : Nat) (acc : List Char),
      (∀ c ∈ acc, pyIsSpace c = false) →
      ∀ c ∈ Nat.toDigitsCore b fuel n acc, pyIsSpace c = false := by
  intro fuel
  induction fuel with
  | zero =>
    intro n acc hacc c hc
    exact hacc c hc
  | succ fuel ih =>
    intro n acc hacc c hc
    unfold Nat.toDigitsCore at hc
    dsimp only at hc
    split at hc
    · rcases List.mem_cons.mp hc with rfl | hmem
      · exact pyIsSpace_digitChar _
      · exact hacc c hmem
    · refine ih (n / b) (Nat.digitChar (n % b) :: acc) ?_ c hc
      intro d hd
      rcases List.mem_cons.mp hd with rfl | hmem
      · exact pyIsSpace_digitChar _
      · exact hacc d hmem

theorem toDigitsCore_ne_nil (b : Nat) :
    ∀ (fuel n : Nat) (acc : List Char), (acc ≠ [] ∨ 0 < fuel) →
      Nat.toDigitsCore b fuel n acc ≠ [] := by
  intro fuel
  induction fuel with
  | zero =>
    intro n acc h
    rcases h with h | h
    · exact h
    · omega
  | succ fuel ih =>
    intro n acc _
    unfold Nat.toDigitsCore
    dsimp only
    split
    · exact List.cons_ne_nil _ _
    · exact ih (n / b) _ (Or.inl (List.cons_ne_nil _ _))

theorem natRepr_no_space (n : Nat) :
    (∀ c ∈ (Nat.repr n).data, pyIsSpace c = false) ∧ (Nat.repr n).data ≠ [] := by
  unfold Nat.repr Nat.toDigits
  constructor
  · exact toDigitsCore_no_space 10 (n + 1) n []
      (fun c hc => absurd hc (List.not_mem_nil c))
  · exact toDigitsCore_ne_nil 10 (n + 1) n [] (Or.inr (Nat.succ_pos n))

theorem intRepr_no_space (i : ℤ) :
    (∀ c ∈ (Int.repr i).data, pyIsSpace c = false) ∧ (Int.repr i).data ≠ [] := by
  cases i with
  | ofNat m => exact natRepr_no_space m
  | negSucc m =>
    unfold Int.repr
    constructor
    · intro c hc
      rw [String.data_append] at hc
      rcases List.mem_append.mp hc with h | h
      · rcases List.mem_singleton.mp h with rfl
        decide
      · exact (natRepr_no_space _).1 c h
    · rw [String.data_append]
      simp

theorem pyStrip_ne_empty (s : String) (h1 : s.data ≠ [])
    (h2 : ∀ c ∈ s.data, pyIsSpace c = false) : pyStrip s ≠ "" := by
  unfold pyStrip
  have hd1 : s.data.dropWhile pyIsSpace = s.data := by
    cases hs : s.data with
    | nil => rfl
    | cons a l =>
      rw [List.dropWhile_cons, if_neg]
      rw [h2 a (hs ▸ List.mem_cons_self a l)]
      simp
  rw [hd1]
  have hd2 : s.data.reverse.dropWhile pyIsSpace = s.data.reverse := by
    cases hs : s.data.reverse with
    | nil => rfl
    | cons a l =>
      rw [List.dropWhile_cons, if_neg]
      have ha : a ∈ s.data := by
        rw [← List.mem_reverse, hs]
        exact List.mem_cons_self a l
      rw [h2 a ha]
      simp
  rw [hd2, List.reverse_reverse]
  intro hcon
  exact h1 (congrArg String.data hcon)

theorem no_space_append (a b : String)
    (ha : ∀ c ∈ a.data, pyIsSpace c = false)
    (hb : ∀ c ∈ b.data, pyIsSpace c = false) :
    ∀ c ∈ (a ++ b).data, pyIsSpace c = false := by
  intro c hc
  rw [String.data_append] at hc
  rcases List.mem_append.mp hc with h | h
  · exact ha c h
  · exact hb c h

theorem pyShowDecimal_strip_ne (q : ℚ) : pyStrip (pyShowDecimal q) ≠ "" := by
  unfold pyShowDecimal
  split
  · have : toString q.num = Int.repr q.num := rfl
    rw [this]
    exact pyStrip_ne_empty _ (intRepr_no_space q.num).2 (intRepr_no_space q.num).1
  · unfold formatFixed
    rw [if_neg (by decide)]
    apply pyStrip_ne_empty
    · rw [String.data_append]
      intro hcon
      rcases List.append_eq_nil.mp hcon with ⟨h1, h2⟩
      rw [String.data_append] at h1
      rcases List.append_eq_nil.mp h1 with ⟨-, h3⟩
      exact absurd h3 (by decide)
    · refine no_space_append _ _ (no_space_append _ _ (no_space_append _ _
        ?_ ?_) ?_) ?_
      · split <;> intro c hc
        · rcases List.mem_singleton.mp hc with rfl; decide
        · exact absurd hc (List.not_mem_nil c)
      · exact (natRepr_no_space _).1
      · intro c hc
        rcases List.mem_singleton.mp hc with rfl; decide
      · unfold padZeros
        refine no_space_append _ _ ?_ ?_
        · intro c hc
          rcases List.eq_of_mem_replicate hc with rfl
          decide
        · exact (natRepr_no_space _).1

theorem findColumnIn_row_eq (ws ws' : Worksheet) (hr : Nat) (name : String)
    (h : ws'.row hr = ws.row hr) :
    findColumnIn ws' hr name = findColumnIn ws hr name := by
  unfold findColumnIn
  rw [h]

theorem findHeaderRowIn_pos (ws : Worksheet) (hr : Nat)
    (h : findHeaderRowIn ws = some hr) : 1 ≤ hr := by
  unfold findHeaderRowIn at h
  have hmem := List.mem_of_find?_eq_some h
  have := List.mem_range'.mp hmem
  omega

theorem findColumnIn_pos (ws : Worksheet) (hr : Nat) (name : String) (c : Nat)
    (h : findColumnIn ws hr name = some c) : 1 ≤ c := by
  unfold findColumnIn at h
  rcases Option.map_eq_some'.mp h with ⟨p, -, hc⟩
  omega

/-! ## C6 — settlement writes -/

/-- Worksheet whose nominal-code cell holds the number 0 — a non-blank
value that the writer's Python-falsiness test treats as empty. -/
def wsC6 : Worksheet :=
  { rows := [
      [.str "PO", .str "INVOICE NO.", .str "INVOICE AMOUNT (EX VAT)",
        .str "INVOICE SIGNED", .str "NOMINAL CODE"],
      [.str "CJL316", .blank, .blank, .blank, .num 0]] }

def wbC6 : Workbook := [("CJL", wsC6)]

def updC6 : Bool × Workbook :=
  updatePORecord wbC6 "CJL" 0 "INV100" 150 "2024-01-01" "7820"

/-- C6 counterexample: the nominal-code cell holds the (non-blank)
numeric value 0, yet the settlement write succeeds and overwrites it
with the new cost code — the claim's "written only when the cell is
currently empty" fails at this input. -/
theorem C6_counterexample :
    wsC6.cell 2 5 = Cell.num 0 ∧
    Cell.num 0 ≠ Cell.blank ∧
    updC6.1 = true ∧
    ((updC6.2.lookup "CJL").getD { rows := [] }).cell 2 5 =
      Cell.str "7820" := by decide

/-- C6 amended: `update_po_record` writes the invoice number, amount and
date cells unconditionally; when the sheet, header row, or any of the
three required columns cannot be located it returns failure with the
workbook completely untouched; no other row is modified; and the
nominal-code cell is written only when its current value is Python-falsy
(blank, empty string, numeric zero) or whitespace-only — a non-blank
textual cost code and a non-zero numeric cost code are never
overwritten, while a numeric zero (a non-empty value) is. -/
theorem C6_settlement_write (wb : Workbook) (sheetName : String)
    (rowIndex : Nat) (invNum : String) (amt : ℚ) (dt : String) (nom : String) :
    ((updatePORecord wb sheetName rowIndex invNum amt dt nom).1 = false →
      (updatePORecord wb sheetName rowIndex invNum amt dt nom).2 = wb) ∧
    (∀ ws hr c1 c2 c3,
      wb.lookup sheetName = some ws →
      findHeaderRowIn ws = some hr →
      findColumnIn ws hr "INVOICE NO." = some c1 →
      findColumnIn ws hr "INVOICE AMOUNT (EX VAT)" = some c2 →
      findColumnIn ws hr "INVOICE SIGNED" = some c3 →
      c1 ≠ c2 → c1 ≠ c3 → c2 ≠ c3 →
      (∀ cN, nom ≠ "" → findColumnIn ws hr "NOMINAL CODE" = some cN →
        cN ≠ c1 ∧ cN ≠ c2 ∧ cN ≠ c3) →
      ∃ ws', updatePORecord wb sheetName rowIndex invNum amt dt nom =
          (true, wbSet wb sheetName ws') ∧
        ws'.cell (hr + rowIndex + 1) c1 = .str invNum ∧
        ws'.cell (hr + rowIndex + 1) c2 = .num amt ∧
        ws'.cell (hr + rowIndex + 1) c3 = .date dt ∧
        (∀ rr cc, 1 ≤ rr → rr ≠ hr + rowIndex + 1 →
          ws'.cell rr cc = ws.cell rr cc) ∧
        (∀ cN, nom ≠ "" → findColumnIn ws hr "NOMINAL CODE" = some cN →
          ((∀ q : ℚ, ws.cell (hr + rowIndex + 1) cN = .num q → q ≠ 0 →
            ws'.cell (hr + rowIndex + 1) cN = .num q) ∧
          (∀ s : String, ws.cell (hr + rowIndex + 1) cN = .str s →
            pyStrip s ≠ "" →
            ws'.cell (hr + rowIndex + 1) cN = .str s) ∧
          (ws.cell (hr + rowIndex + 1) cN = .blank →
            ws'.cell (hr + rowIndex + 1) cN = .str nom) ∧
          (ws.cell (hr + rowIndex + 1) cN = .num 0 →
            ws'.cell (hr + rowIndex + 1) cN = .str nom)))) := by
  constructor
  · unfold updatePORecord
    cases hlk : wb.lookup sheetName with
    | none => intro _; rfl
    | some ws =>
      dsimp only
      cases hhr : findHeaderRowIn ws with
      | none => intro _; rfl
      | some hr =>
        dsimp only
        cases hc1 : findColumnIn ws hr "INVOICE NO." with
        | none => intro _; rfl
        | some c1 =>
          cases hc2 : findColumnIn ws hr "INVOICE AMOUNT (EX VAT)" with
          | none => intro _; rfl
          | some c2 =>
            cases hc3 : findColumnIn ws hr "INVOICE SIGNED" with
            | none => intro _; rfl
            | some c3 =>
              intro hfail
              simp at hfail
  · intro ws hr c1 c2 c3 hws hhr hc1 hc2 hc3 h12 h13 h23 hdist
    have hhr1 : 1 ≤ hr := findHeaderRowIn_pos ws hr hhr
    have hcp1 : 1 ≤ c1 := findColumnIn_pos ws hr _ c1 hc1
    have hcp2 : 1 ≤ c2 := findColumnIn_pos ws hr _ c2 hc2
    have hcp3 : 1 ≤ c3 := findColumnIn_pos ws hr _ c3 hc3
    have her1 : 1 ≤ hr + rowIndex + 1 := by omega
    have herne : hr + rowIndex + 1 ≠ hr := by omega
    set er := hr + rowIndex + 1 with herdef
    set ws1 := ws.setCell er c1 (.str invNum) with hws1
    set ws2 := ws1.setCell er c2 (.num amt) with hws2
    set ws3 := ws2.setCell er c3 (.date dt) with hws3
    have hrow3 : ws3.row hr = ws.row hr := by
      rw [hws3, hws2, hws1,
        setCell_row_other _ _ _ _ _ her1 hhr1 herne.symm,
        setCell_row_other _ _ _ _ _ her1 hhr1 herne.symm,
        setCell_row_other _ _ _ _ _ her1 hhr1 herne.symm]
    have hcell1 : ws3.cell er c1 = .str invNum := by
      rw [hws3, hws2,
        setCell_cell_other_col _ _ _ _ _ her1 hcp3 hcp1 h13,
        setCell_cell_other_col _ _ _ _ _ her1 hcp2 hcp1 h12, hws1,
        setCell_cell_self _ _ _ _ her1 hcp1]
    have hcell2 : ws3.cell er c2 = .num amt := by
      rw [hws3,
        setCell_cell_other_col _ _ _ _ _ her1 hcp3 hcp2 h23, hws2,
        setCell_cell_self _ _ _ _ her1 hcp2]
    have hcell3 : ws3.cell er c3 = .date dt := by
      rw [hws3, setCell_cell_self _ _ _ _ her1 hcp3]
    have hframe3 : ∀ rr cc, 1 ≤ rr → rr ≠ er →
        ws3.cell rr cc = ws.cell rr cc := by
      intro rr cc hrr hne
      rw [hws3, hws2, hws1,
        setCell_cell_other_row _ _ _ _ _ _ her1 hrr hne,
        setCell_cell_other_row _ _ _ _ _ _ her1 hrr hne,
        setCell_cell_other_row _ _ _ _ _ _ her1 hrr hne]
    have hred : updatePORecord wb sheetName rowIndex invNum amt dt nom =
        (true, wbSet wb sheetName
          (if nom ≠ "" then
            match findColumnIn ws3 hr "NOMINAL CODE" with
            | some cNom =>
              let existing := ws3.cell er cNom
              if cellFalsy existing || pyStrip (cellStr existing) = "" then
                ws3.setCell er cNom (.str nom)
              else ws3
            | none => ws3
          else ws3)) := by
      unfold updatePORecord
      rw [hws]
      dsimp only
      rw [hhr]
      dsimp only
      rw [hc1, hc2, hc3]
    by_cases hnom : nom = ""
    · refine ⟨ws3, ?_, hcell1, hcell2, hcell3, hframe3, ?_⟩
      · rw [hred, if_neg (by simp [hnom])]
      · intro cN hne _
        exact absurd hnom hne
    · have hnomcol : findColumnIn ws3 hr "NOMINAL CODE" =
          findColumnIn ws hr "NOMINAL CODE" :=
        findColumnIn_row_eq ws ws3 hr _ hrow3
      cases hcN : findColumnIn ws hr "NOMINAL CODE" with
      | none =>
        refine ⟨ws3, ?_, hcell1, hcell2, hcell3, hframe3, ?_⟩
        · rw [hred, if_pos hnom, hnomcol, hcN]
        · intro cN2 _ hcol
          exact absurd hcol (by simp)
      | some cN =>
        have hcpN : 1 ≤ cN := findColumnIn_pos ws hr _ cN hcN
        obtain ⟨hd1, hd2, hd3⟩ := hdist cN hnom hcN
        have hold3 : ws3.cell er cN = ws.cell er cN := by
          rw [hws3, hws2, hws1,
            setCell_cell_other_col _ _ _ _ _ her1 hcp3 hcpN hd3,
            setCell_cell_other_col _ _ _ _ _ her1 hcp2 hcpN hd2,
            setCell_cell_other_col _ _ _ _ _ her1 hcp1 hcpN hd1]
        by_cases hempty : (cellFalsy (ws3.cell er cN) ||
            pyStrip (cellStr (ws3.cell er cN)) = "") = true
        · refine ⟨ws3.setCell er cN (.str nom), ?_, ?_, ?_, ?_, ?_, ?_⟩
          · rw [hred, if_pos hnom, hnomcol, hcN]
            dsimp only
            rw [if_pos hempty]
          · rw [setCell_cell_other_col _ _ _ _ _ her1 hcpN hcp1 hd1.symm]
            exact hcell1
          · rw [setCell_cell_other_col _ _ _ _ _ her1 hcpN hcp2 hd2.symm]
            exact hcell2
          · rw [setCell_cell_other_col _ _ _ _ _ her1 hcpN hcp3 hd3.symm]
            exact hcell3
          · intro rr cc hrr hne
            rw [setCell_cell_other_row _ _ _ _ _ _ her1 hrr hne]
            exact hframe3 rr cc hrr hne
          · intro cN2 _ hcol
            have hcc : cN2 = cN := by
              injection hcol with h
              exact h.symm
            subst hcc
            refine ⟨?_, ?_, ?_, ?_⟩
            · intro q hq hq0
              exfalso
              rw [hold3, hq] at hempty
              simp only [cellFalsy, cellStr, decide_eq_true_eq,
                Bool.or_eq_true] at hempty
              rcases hempty with h | h
              · exact hq0 (by exact_mod_cast h)
              · exact pyShowDecimal_strip_ne q h
            · intro sv hsv hstrip
              exfalso
              rw [hold3, hsv] at hempty
              simp only [cellFalsy, cellStr, decide_eq_true_eq,
                Bool.or_eq_true] at hempty
              rcases hempty with h | h
              · rw [h] at hstrip
                exact hstrip rfl
              · exact hstrip h
            · intro _
              exact setCell_cell_self _ _ _ _ her1 hcpN
            · intro _
              exact setCell_cell_self _ _ _ _ her1 hcpN
        · refine ⟨ws3, ?_, hcell1, hcell2, hcell3, hframe3, ?_⟩
          · rw [hred, if_pos hnom, hnomcol, hcN]
            dsimp only
            rw [if_neg hempty]
          · intro cN2 _ hcol
            have hcc : cN2 = cN := by
              injection hcol with h
              exact h.symm
            subst hcc
            refine ⟨?_, ?_, ?_, ?_⟩
            · intro q hq _
              rw [hold3, hq]
            · intro sv hsv _
              rw [hold3, hsv]
            · intro hb
              exfalso
              apply hempty
              rw [hold3, hb]
              rfl
            · intro hz
              exfalso
              apply hempty
              rw [hold3, hz]
              rfl

theorem C6_witness :
    wbC6.lookup "CJL" = some wsC6 ∧
    findHeaderRowIn wsC6 = some 1 ∧
    findColumnIn wsC6 1 "INVOICE NO." = some 2 ∧
    findColumnIn wsC6 1 "INVOICE AMOUNT (EX VAT)" = some 3 ∧
    findColumnIn wsC6 1 "INVOICE SIGNED" = some 4 ∧
    findColumnIn wsC6 1 "NOMINAL CODE" = some 5 ∧
    ∃ ws', updatePORecord wbC6 "CJL" 0 "INV100" 150 "2024-01-01" "7820" =
        (true, wbSet wbC6 "CJL" ws') ∧
      ws'.cell 2 2 = .str "INV100" ∧
      ws'.cell 2 3 = .num 150 ∧
      ws'.cell 2 4 = .date "2024-01-01" ∧
      ws'.cell 2 5 = .str "7820" := by
  have hws : wbC6.lookup "CJL" = some wsC6 := rfl
  have hhr : findHeaderRowIn wsC6 = some 1 := by decide
  have hc1 : findColumnIn wsC6 1 "INVOICE NO." = some 2 := by decide
  have hc2 : findColumnIn wsC6 1 "INVOICE AMOUNT (EX VAT)" = some 3 := by decide
  have hc3 : findColumnIn wsC6 1 "INVOICE SIGNED" = some 4 := by decide
  have hcN : findColumnIn wsC6 1 "NOMINAL CODE" = some 5 := by decide
  have hdist : ∀ cN, ("7820" : String) ≠ "" →
      findColumnIn wsC6 1 "NOMINAL CODE" = some cN →
      cN ≠ 2 ∧ cN ≠ 3 ∧ cN ≠ 4 := by
    intro cN _ h
    rw [hcN] at h
    injection h with h2
    subst h2
    exact ⟨by decide, by decide, by decide⟩
  obtain ⟨ws', heq, hk1, hk2, hk3, -, hnomcl⟩ :=
    (C6_settlement_write wbC6 "CJL" 0 "INV100" 150 "2024-01-01" "7820").2
      wsC6 1 2 3 4 hws hhr hc1 hc2 hc3 (by decide) (by decide) (by decide) hdist
  refine ⟨hws, hhr, hc1, hc2, hc3, hcN, ws', heq, hk1, hk2, hk3, ?_⟩
  exact (hnomcl 5 (by decide) hcN).2.2.2 (by decide)
